import Mathlib

/-!
Verification development for the bot-detection data pipeline:
a shallow embedding of the data-validation and data-unification modules
(`data_validation.py`, `data_unification.py`) together with theorems about
their specified behaviour.

Modelling conventions:
* A pandas cell value is `Value`: an integer, a string, or a null marker
  (`None`/`NaN` are identified; numeric literals are modelled as integers).
* A pandas `Series`/column is a `Col`: a name, a dtype tag (the pandas dtype
  rendered as a string, e.g. "int64", "object"), and a list of cell values.
* A `DataFrame` is a row count plus a list of columns.  pandas guarantees all
  columns of one frame share the frame length; the embedding does not need
  that invariant for the theorems below.
* Raising `ValueError` is modelled with `Except String`.
* `astype(str)` renders a null cell as the string "None" (Python prints
  `None`/`NaN` as a non-empty string; only the fact that the result is a
  non-null string matters below).
-/

/-- A single cell of a table. -/
inductive Value where
  | vint (n : Int)
  | vstr (s : String)
  | vnull
deriving DecidableEq, Repr

/-- `True` on the null marker: models `pandas.isna` on one cell. -/
def Value.isNullV : Value → Bool
  | .vnull => true
  | _ => false

/-- `str(v)`, as applied by `astype(str)`. -/
def renderVal : Value → String
  | .vint n => toString n
  | .vstr s => s
  | .vnull => "None"

/-- Parse a run of decimal digits (`none` on any non-digit). -/
def parseNatGo : List Char → Nat → Option Nat
  | [], acc => some acc
  | c :: cs, acc =>
      if c.isDigit then parseNatGo cs (acc * 10 + (c.toNat - 48)) else none

/-- Parse a non-empty all-digit character list. -/
def parseNatChars : List Char → Option Nat
  | [] => none
  | l => parseNatGo l 0

/-- Parse an integer literal (optional leading minus then digits); the
numeric strings accepted by `pd.to_numeric` in this embedding. -/
def strToInt? (s : String) : Option Int :=
  match s.data with
  | '-' :: rest => (parseNatChars rest).map (fun n => -(n : Int))
  | l => (parseNatChars l).map (fun n => (n : Int))

/-- `pd.to_numeric(v, errors="coerce").fillna(0)` on one cell: a non-numeric
or missing cell becomes 0, a numeric cell keeps its integer value. -/
def coerceNum : Value → Int
  | .vint n => n
  | .vstr s => (strToInt? s).getD 0
  | .vnull => 0

/-- One column of a table: name, pandas dtype tag and the cell values. -/
structure Col where
  name : String
  dtype : String
  values : List Value
deriving DecidableEq, Repr

/-- A table: the row count together with the columns in display order. -/
structure DataFrame where
  nrows : Nat
  cols : List Col
deriving DecidableEq, Repr

/-- `df[name]`: the first column carrying `name`, if any. -/
def DataFrame.getCol? (df : DataFrame) (n : String) : Option Col :=
  df.cols.find? (fun c => c.name = n)

/-- `name in df.columns`. -/
def DataFrame.hasCol (df : DataFrame) (n : String) : Bool :=
  (df.getCol? n).isSome

/-- The values of column `n` (empty when the column is absent). -/
def getColValues (df : DataFrame) (n : String) : List Value :=
  ((df.getCol? n).map Col.values).getD []

/-- `list(df.columns)`. -/
def colNames (df : DataFrame) : List String :=
  df.cols.map Col.name

/-- Replace the first column called `n` in a column list, else append. -/
def setColList (n dt : String) (vs : List Value) : List Col → List Col
  | [] => [⟨n, dt, vs⟩]
  | c :: rest =>
      if c.name = n then ⟨n, dt, vs⟩ :: rest else c :: setColList n dt vs rest

/-- `df[n] = series`: overwrite the column in place when present, else append
it on the right.  Assigning the first column of an empty frame fixes the row
count, matching pandas. -/
def setCol (df : DataFrame) (n dt : String) (vs : List Value) : DataFrame :=
  if (df.getCol? n).isSome then { df with cols := setColList n dt vs df.cols }
  else { nrows := if df.cols.isEmpty then vs.length else df.nrows,
         cols := df.cols ++ [⟨n, dt, vs⟩] }

/-- `pd.DataFrame()`. -/
def emptyFrame : DataFrame := ⟨0, []⟩

/-- Python substring test `needle in hay`, on character lists. -/
def isSubChars (needle : List Char) : List Char → Bool
  | [] => needle.isEmpty
  | c :: t => needle.isPrefixOf (c :: t) || isSubChars needle t

/-- Python `needle in hay` on strings. -/
def strIn (needle hay : String) : Bool := isSubChars needle.data hay.data

/-- `DataValidator._infer_dataset_name`: pick a schema name from substring
markers of the lower-cased filename. -/
def infer_dataset_name (filename : String) : Option String :=
  let fl := filename.toLower
  if strIn "train_essay" fl || strIn "train_" fl then
    if strIn "prompt" fl then some "train_prompts"
    else some "primary_competition_data"
  else if strIn "daigt" fl then some "daigt_v2_additional_data"
  else none

/-- Deduplicate keeping the first occurrence of each element, as Python
`set` construction / `Series.unique` do (only cardinality and membership of
the result are used below). -/
def dedupFirstAux {α : Type} [DecidableEq α] (seen : List α) : List α → List α
  | [] => []
  | v :: vs =>
      if v ∈ seen then dedupFirstAux seen vs
      else v :: dedupFirstAux (v :: seen) vs

/-- Distinct elements of a list, first occurrences kept. -/
def dedupFirst {α : Type} [DecidableEq α] (l : List α) : List α :=
  dedupFirstAux [] l

/-- Truthiness of a Python `Optional[int]`: `None` and `0` are falsy. -/
def optTruthy : Option Int → Bool
  | none => false
  | some n => n ≠ 0

/-- `pd.api.types.is_integer_dtype` on a dtype tag (representative integer
dtypes; the frames of this repository only ever carry "int64"). -/
def isIntegerDtype (d : String) : Bool :=
  d = "int64" || d = "int32" || d = "int16" || d = "int8" ||
  d = "uint64" || d = "uint32" || d = "uint16" || d = "uint8" || d = "Int64"

/-- `pd.api.types.is_object_dtype` on a dtype tag. -/
def isObjectDtype (d : String) : Bool := d = "object"

/-- Schema definition for a dataset column (`ColumnSchema`). -/
structure ColumnSchema where
  name : String
  dtype : String
  nullable : Bool := true
  unique : Bool := false
  min_length : Option Int := none
  max_length : Option Int := none
  allowed_values : Option (List Value) := none
deriving DecidableEq, Repr

/-- Schema definition for a complete dataset (`DatasetSchema`). -/
structure DatasetSchema where
  name : String
  columns : List ColumnSchema
  min_rows : Int := 1
  max_rows : Option Int := none
deriving DecidableEq, Repr

/-- `DatasetSchema.get_column_schema`: first column schema with that name. -/
def DatasetSchema.get_column_schema (s : DatasetSchema) (n : String) :
    Option ColumnSchema :=
  s.columns.find? (fun c => c.name = n)

/-- One entry of `ValidationResult.errors`.  The Python code renders each
error as an interpolated string; the embedding keeps the interpolated data
in a structured constructor instead. -/
inductive VErr where
  | insufficientRows (got : Nat) (minRows : Int)
  | tooManyRows (got : Nat) (maxRows : Int)
  | missingColumns (cols : List String)
  | nullViolation (col : String) (nullCount : Nat)
  | uniqueViolation (col : String) (dupCount : Nat)
  | dtypeMismatch (col : String) (expected got : String)
  | tooShort (col : String) (count : Nat) (minLen : Int)
  | tooLong (col : String) (count : Nat) (maxLen : Int)
  | invalidValues (col : String) (vals : List Value)
  | fileNotFound (path : String)
  | unsupportedFormat (sfx : String)
  | loadFailed (msg : String)
  | noSchemaFound (nm : String)
deriving DecidableEq, Repr

/-- One entry of `ValidationResult.warnings`. -/
inductive VWarn where
  | extraColumns (cols : List String)
deriving DecidableEq, Repr

/-- Result of data validation (`ValidationResult`). -/
structure ValidationResult where
  dataset_name : String
  is_valid : Bool
  errors : List VErr := []
  warnings : List VWarn := []
  row_count : Nat
  column_count : Nat
deriving DecidableEq, Repr

/-- Row-count errors among `VErr` (the two checks of step 1 of
`validate_dataframe`). -/
def isRowCountError : VErr → Bool
  | .insufficientRows _ _ => true
  | .tooManyRows _ _ => true
  | _ => false

/-- `series.dropna()`. -/
def nonNullValues (vs : List Value) : List Value :=
  vs.filter (fun v => !v.isNullV)

/-- Null check of `_validate_column`. -/
def nullCheckErrs (col : Col) (cs : ColumnSchema) : List VErr :=
  if cs.nullable = false ∧ col.values.any Value.isNullV then
    [.nullViolation cs.name (col.values.countP Value.isNullV)]
  else []

/-- Uniqueness check of `_validate_column` (`series.is_unique`;
`duplicate_count = len(series) - len(series.unique())`). -/
def uniqueCheckErrs (col : Col) (cs : ColumnSchema) : List VErr :=
  if cs.unique = true ∧ (dedupFirst col.values).length ≠ col.values.length then
    [.uniqueViolation cs.name (col.values.length - (dedupFirst col.values).length)]
  else []

/-- Basic dtype check of `_validate_column`. -/
def dtypeCheckErrs (col : Col) (cs : ColumnSchema) : List VErr :=
  if cs.dtype = "int64" ∧ ¬ isIntegerDtype col.dtype then
    [.dtypeMismatch cs.name "int64" col.dtype]
  else if cs.dtype = "object" ∧ ¬ isObjectDtype col.dtype then
    [.dtypeMismatch cs.name "object" col.dtype]
  else []

/-- String-length checks of `_validate_column` (`astype(str).str.len()`
against `min_length`/`max_length`; Python truthiness guards). -/
def lengthCheckErrs (col : Col) (cs : ColumnSchema) : List VErr :=
  if cs.dtype = "object" ∧ (optTruthy cs.min_length ∨ optTruthy cs.max_length) then
    let nn := nonNullValues col.values
    if nn.length > 0 then
      (match cs.min_length with
        | some ml =>
            if ml ≠ 0 ∧
                nn.countP (fun v => decide (((renderVal v).length : Int) < ml)) > 0 then
              [.tooShort cs.name
                (nn.countP (fun v => decide (((renderVal v).length : Int) < ml))) ml]
            else []
        | none => []) ++
      (match cs.max_length with
        | some mx =>
            if mx ≠ 0 ∧
                nn.countP (fun v => decide (mx < ((renderVal v).length : Int))) > 0 then
              [.tooLong cs.name
                (nn.countP (fun v => decide (mx < ((renderVal v).length : Int)))) mx]
            else []
        | none => [])
    else []
  else []

/-- Allowed-values check of `_validate_column`
(`set(non_null.unique()) - allowed_values`; empty set is falsy). -/
def allowedCheckErrs (col : Col) (cs : ColumnSchema) : List VErr :=
  match cs.allowed_values with
  | some av =>
      if av ≠ [] then
        let invalid :=
          (dedupFirst (nonNullValues col.values)).filter (fun v => decide (v ∉ av))
        if invalid ≠ [] then [.invalidValues cs.name invalid] else []
      else []
  | none => []

/-- `DataValidator._validate_column`. -/
def validate_column (col : Col) (cs : ColumnSchema) : List VErr :=
  nullCheckErrs col cs ++ uniqueCheckErrs col cs ++ dtypeCheckErrs col cs ++
  lengthCheckErrs col cs ++ allowedCheckErrs col cs

/-- One iteration of the per-column loop of `validate_dataframe`. -/
def colStep (df : DataFrame) (schema : DatasetSchema) (cname : String)
    (r : ValidationResult) : ValidationResult :=
  match schema.get_column_schema cname, df.getCol? cname with
  | some cs, some col =>
      let errs := validate_column col cs
      if errs.isEmpty then r
      else { r with errors := r.errors ++ errs, is_valid := false }
  | _, _ => r

/-- The per-column loop of `validate_dataframe`. -/
def colLoop (df : DataFrame) (schema : DatasetSchema) :
    List String → ValidationResult → ValidationResult
  | [], r => r
  | c :: cs, r => colLoop df schema cs (colStep df schema c r)

/-- Expected column names (`schema.get_column_names()`, a Python set). -/
def expectedNames (schema : DatasetSchema) : List String :=
  dedupFirst (schema.columns.map ColumnSchema.name)

/-- Actual column names (`set(df.columns)`). -/
def actualNames (df : DataFrame) : List String :=
  dedupFirst (colNames df)

/-- The fresh result constructed at the top of `validate_dataframe`. -/
def initialResult (df : DataFrame) (schema : DatasetSchema) : ValidationResult :=
  { dataset_name := schema.name, is_valid := true,
    row_count := df.nrows, column_count := df.cols.length }

/-- `result.errors.append(e); result.is_valid = False`. -/
def addErrRes (r : ValidationResult) (e : VErr) : ValidationResult :=
  { r with errors := r.errors ++ [e], is_valid := false }

/-- `result.warnings.append(w)`. -/
def addWarnRes (r : ValidationResult) (w : VWarn) : ValidationResult :=
  { r with warnings := r.warnings ++ [w] }

/-- The `len(df) < schema.min_rows` check of `validate_dataframe`. -/
def minRowsCheck (df : DataFrame) (schema : DatasetSchema)
    (r : ValidationResult) : ValidationResult :=
  if (df.nrows : Int) < schema.min_rows then
    addErrRes r (.insufficientRows df.nrows schema.min_rows)
  else r

/-- The `schema.max_rows and len(df) > schema.max_rows` check
(Python truthiness: `max_rows = 0` never fires). -/
def maxRowsCheck (df : DataFrame) (schema : DatasetSchema)
    (r : ValidationResult) : ValidationResult :=
  match schema.max_rows with
  | some m =>
      if m ≠ 0 ∧ m < (df.nrows : Int) then addErrRes r (.tooManyRows df.nrows m)
      else r
  | none => r

/-- `expected_columns - actual_columns`. -/
def missingCols (df : DataFrame) (schema : DatasetSchema) : List String :=
  (expectedNames schema).filter (fun c => decide (c ∉ actualNames df))

/-- `actual_columns - expected_columns`. -/
def extraCols (df : DataFrame) (schema : DatasetSchema) : List String :=
  (actualNames df).filter (fun c => decide (c ∉ expectedNames schema))

/-- The missing-columns hard error of `validate_dataframe`. -/
def missingCheck (df : DataFrame) (schema : DatasetSchema)
    (r : ValidationResult) : ValidationResult :=
  if (missingCols df schema).isEmpty then r
  else addErrRes r (.missingColumns (missingCols df schema))

/-- The extra-columns warning of `validate_dataframe`. -/
def extraCheck (df : DataFrame) (schema : DatasetSchema)
    (r : ValidationResult) : ValidationResult :=
  if (extraCols df schema).isEmpty then r
  else addWarnRes r (.extraColumns (extraCols df schema))

/-- `validate_dataframe` before the per-column loop: row-count checks and
column-presence checks applied in source order. -/
def preColumnResult (df : DataFrame) (schema : DatasetSchema) : ValidationResult :=
  extraCheck df schema (missingCheck df schema
    (maxRowsCheck df schema (minRowsCheck df schema (initialResult df schema))))

/-- Columns present in both the expected and the actual name sets, iterated
in schema declaration order (the Python code iterates a set, whose order is
unspecified; no property below depends on the order). -/
def presentColumns (df : DataFrame) (schema : DatasetSchema) : List String :=
  (expectedNames schema).filter (fun c => decide (c ∈ actualNames df))

/-- `DataValidator.validate_dataframe`. -/
def validate_dataframe (df : DataFrame) (schema : DatasetSchema) : ValidationResult :=
  colLoop df schema (presentColumns df schema) (preColumnResult df schema)

/-- The schema registry (`DataValidator._get_expected_schemas`). -/
def expected_schemas : List (String × DatasetSchema) :=
  [("primary_competition_data",
    { name := "primary_competition_data",
      columns := [
        { name := "id", dtype := "int64", nullable := false, unique := true },
        { name := "prompt_id", dtype := "int64", nullable := false },
        { name := "text", dtype := "object", nullable := false, min_length := some 10 },
        { name := "generated", dtype := "int64", nullable := false,
          allowed_values := some [.vint 0, .vint 1] }],
      min_rows := 1000 }),
   ("daigt_v2_additional_data",
    { name := "daigt_v2_additional_data",
      columns := [
        { name := "id", dtype := "object", nullable := false, unique := true },
        { name := "prompt_id", dtype := "object", nullable := false },
        { name := "text", dtype := "object", nullable := false, min_length := some 10 },
        { name := "generated", dtype := "int64", nullable := false,
          allowed_values := some [.vint 0, .vint 1] },
        { name := "source", dtype := "object", nullable := true }],
      min_rows := 100 }),
   ("train_prompts",
    { name := "train_prompts",
      columns := [
        { name := "prompt_id", dtype := "int64", nullable := false, unique := true },
        { name := "prompt_name", dtype := "object", nullable := false },
        { name := "instructions", dtype := "object", nullable := false,
          min_length := some 10 },
        { name := "source_text", dtype := "object", nullable := false,
          min_length := some 10 }],
      min_rows := 1 })]

/-- `self.schemas[name]` lookup. -/
def lookupSchema (n : String) : Option DatasetSchema :=
  (expected_schemas.find? (fun p => p.1 = n)).map Prod.snd

/-- Abstraction of the file named by a path: whether it exists, its suffix
and stem (as `pathlib` computes them), and the outcome of loading it with
the suffix-appropriate pandas reader (`Except.error` models the reader
raising). -/
structure FileInput where
  path : String
  stem : String
  sfx : String
  path_exists : Bool
  load : Except String DataFrame

/-- `dataset_name or file_path.stem` (empty string is falsy). -/
def nameOrStem (dn : Option String) (stem : String) : String :=
  match dn with
  | some s => if s = "" then stem else s
  | none => stem

/-- Schema resolution by inferred name inside `validate_file`. -/
def inferSchema (stem : String) : Option DatasetSchema :=
  match infer_dataset_name stem with
  | some n => if (lookupSchema n).isSome then lookupSchema n else none
  | none => none

/-- Schema resolution of `validate_file`: explicit dataset name when truthy
and registered, otherwise inference from the stem. -/
def schemaFor (dn : Option String) (stem : String) : Option DatasetSchema :=
  match dn with
  | some s =>
      if s ≠ "" ∧ (lookupSchema s).isSome then lookupSchema s
      else inferSchema stem
  | none => inferSchema stem

/-- The suffix test of `validate_file` (`.csv`, `.parquet`, `.pq`,
lower-cased). -/
def supportedSuffix (s : String) : Bool :=
  s.toLower = ".csv" || s.toLower = ".parquet" || s.toLower = ".pq"

/-- `DataValidator.validate_file`. -/
def validate_file (fi : FileInput) (dataset_name : Option String) :
    ValidationResult :=
  if fi.path_exists = false then
    { dataset_name := nameOrStem dataset_name fi.stem, is_valid := false,
      errors := [.fileNotFound fi.path], row_count := 0, column_count := 0 }
  else if supportedSuffix fi.sfx then
    match fi.load with
    | .error e =>
        { dataset_name := nameOrStem dataset_name fi.stem, is_valid := false,
          errors := [.loadFailed e], row_count := 0, column_count := 0 }
    | .ok df =>
        match schemaFor dataset_name fi.stem with
        | some sch => validate_dataframe df sch
        | none =>
            { dataset_name := nameOrStem dataset_name fi.stem, is_valid := false,
              errors := [.noSchemaFound (nameOrStem dataset_name fi.stem)],
              row_count := df.nrows, column_count := df.cols.length }
  else
    { dataset_name := nameOrStem dataset_name fi.stem, is_valid := false,
      errors := [.unsupportedFormat fi.sfx], row_count := 0, column_count := 0 }

/-- `DataUnifier.standard_columns`. -/
def standardColumns : List String := ["id", "prompt_id", "text", "generated", "source"]

/-- Column mapping of the primary competition dataset
(`DataUnifier._get_column_mappings`), standard column to source column. -/
def primaryMapping : List (String × String) :=
  [("id", "id"), ("prompt_id", "prompt_id"), ("text", "text"),
   ("generated", "generated")]

/-- Column mapping of the daigt additional dataset. -/
def daigtMapping : List (String × String) :=
  [("id", "id"), ("prompt_id", "prompt_id"), ("text", "text"),
   ("generated", "generated"), ("source", "source")]

/-- `self.column_mappings[dataset_name]` lookup. -/
def lookupMapping (n : String) : Option (List (String × String)) :=
  if n = "primary_competition_data" then some primaryMapping
  else if n = "daigt_v2_additional_data" then some daigtMapping
  else none

/-- One iteration of the column-mapping loop of `standardise_dataset`:
copy `df[source_col]` into `standardised[standard_col]` when present. -/
def mapStep (df : DataFrame) (acc : DataFrame) (p : String × String) : DataFrame :=
  match df.getCol? p.2 with
  | some c => setCol acc p.1 c.dtype c.values
  | none => acc

/-- The column-mapping loop of `standardise_dataset`. -/
def mapGo (df : DataFrame) : List (String × String) → DataFrame → DataFrame
  | [], acc => acc
  | p :: ps, acc => mapGo df ps (mapStep df acc p)

/-- Map the source columns of `df` into a fresh frame following `m`. -/
def mapStage (df : DataFrame) (m : List (String × String)) : DataFrame :=
  mapGo df m emptyFrame

/-- One iteration of the missing-standard-columns loop: `source` receives the
dataset name as a scalar, every other absent standard column receives nulls
(scalar assignment broadcasts over the current row count). -/
def fillStep (name : String) (c : String) (acc : DataFrame) : DataFrame :=
  if (acc.getCol? c).isSome then acc
  else if c = "source" then
    setCol acc c "object" (List.replicate acc.nrows (.vstr name))
  else setCol acc c "object" (List.replicate acc.nrows .vnull)

/-- The missing-standard-columns loop of `standardise_dataset`. -/
def fillGo (name : String) : List String → DataFrame → DataFrame
  | [], acc => acc
  | c :: cs, acc => fillGo name cs (fillStep name c acc)

/-- Add the missing standard columns with default values. -/
def fillStage (df : DataFrame) (name : String) : DataFrame :=
  fillGo name standardColumns df

/-- The `type_conversions` dict of `_ensure_data_types`, in insertion order;
`true` marks the integer target (`generated`), `false` the `str` targets. -/
def typeConvs : List (String × Bool) :=
  [("id", false), ("prompt_id", false), ("text", false), ("generated", true),
   ("source", false)]

/-- One iteration of `_ensure_data_types`: `generated` goes through
`pd.to_numeric(errors="coerce").fillna(0).astype(int)`, the other standard
columns through `astype(str)`. -/
def ensureStep (p : String × Bool) (acc : DataFrame) : DataFrame :=
  match acc.getCol? p.1 with
  | some c =>
      if p.2 then setCol acc p.1 "int64" (c.values.map (fun v => .vint (coerceNum v)))
      else setCol acc p.1 "object" (c.values.map (fun v => .vstr (renderVal v)))
  | none => acc

/-- The conversion loop of `_ensure_data_types`. -/
def ensureGo : List (String × Bool) → DataFrame → DataFrame
  | [], acc => acc
  | p :: ps, acc => ensureGo ps (ensureStep p acc)

/-- `DataUnifier._ensure_data_types`. -/
def ensure_data_types (df : DataFrame) : DataFrame := ensureGo typeConvs df

/-- The final guard of `standardise_dataset`: when `source` is absent or
entirely null (`isna().all()`, vacuously true on an empty column), assign
the dataset name as a scalar. -/
def sourceFill (df : DataFrame) (name : String) : DataFrame :=
  if (df.getCol? "source").isNone ∨ (getColValues df "source").all Value.isNullV then
    setCol df "source" "object" (List.replicate df.nrows (.vstr name))
  else df

/-- The body of `standardise_dataset` for a known dataset name. -/
def standardiseCore (df : DataFrame) (name : String)
    (m : List (String × String)) : DataFrame :=
  sourceFill (ensure_data_types (fillStage (mapStage df m) name)) name

/-- `DataUnifier.standardise_dataset`; raising `ValueError` on an unknown
dataset name is modelled with `Except.error`. -/
def standardise_dataset (df : DataFrame) (name : String) :
    Except String DataFrame :=
  match lookupMapping name with
  | some m => .ok (standardiseCore df name m)
  | none => .error ("No column mapping found for dataset: " ++ name)

/-- Decimal digits of a natural number, most significant first, by fuelled
division (the fuel `n` always suffices). -/
def digitsGo : Nat → Nat → List Nat
  | 0, n => [n % 10]
  | f + 1, n => if n < 10 then [n] else digitsGo f (n / 10) ++ [n % 10]

/-- Decimal digits of `n`. -/
def natDigits (n : Nat) : List Nat := digitsGo n n

/-- Digits of `n` under Python formatting with a minimum width of two
(the format `02d` used for the ID sequence number). -/
def padDigits (n : Nat) : List Nat :=
  if n < 10 then 0 :: natDigits n else natDigits n

/-- The character of one decimal digit. -/
def digitChar (d : Nat) : Char := Char.ofNat (48 + d)

/-- The `02d`-formatted sequence number of `resolve_id_conflicts`. -/
def seqTag (n : Nat) : String := ⟨(padDigits n).map digitChar⟩

/-- The body of `resolve_id_conflicts` for one table: when an `id` column is
present, keep the original values under `original_id` and rewrite `id` to
the tagged string; otherwise the copy is unchanged. -/
def resolveOne (df : DataFrame) (seq : Nat) : DataFrame :=
  match df.getCol? "id" with
  | some c =>
      setCol (setCol df "original_id" c.dtype c.values) "id" "object"
        (c.values.map (fun v => .vstr (seqTag seq ++ "_" ++ renderVal v)))
  | none => df

/-- `DataUnifier.resolve_id_conflicts`: the sequence counter starts at 1 and
advances once per table, in input order. -/
def resolve_id_conflicts (ds : List (DataFrame × String)) :
    List (DataFrame × String) :=
  ds.enum.map (fun p => (resolveOne p.2.1 (p.1 + 1), p.2.2))

/-- The values of column `n` after `pd.concat(frames, ignore_index=True)`:
frames lacking the column contribute nulls. -/
def concatColValues (fs : List DataFrame) (n : String) : List Value :=
  (fs.map (fun f =>
    match f.getCol? n with
    | some c => c.values
    | none => List.replicate f.nrows .vnull)).flatten

/-- The dtype tag of a concatenated column (first frame carrying it; not
relevant to any property below). -/
def concatDtype (fs : List DataFrame) (n : String) : String :=
  ((fs.findSome? (fun f => f.getCol? n)).map Col.dtype).getD "object"

/-- Column names of `pd.concat`, in order of first appearance. -/
def concatNames (fs : List DataFrame) : List String :=
  dedupFirst ((fs.map colNames).flatten)

/-- `pd.concat(frames, ignore_index=True)`. -/
def concatFrames (fs : List DataFrame) : DataFrame :=
  ⟨(fs.map DataFrame.nrows).sum,
   (concatNames fs).map (fun n => ⟨n, concatDtype fs n, concatColValues fs n⟩)⟩

/-- The keep-mask of `drop_duplicates(subset=["text"], keep="first")`: a row
is kept when its text value has not occurred earlier. -/
def keepFirstGo (seen : List Value) : List Value → List Bool
  | [] => []
  | t :: ts => (decide (t ∉ seen)) :: keepFirstGo (t :: seen) ts

/-- Restrict a value list to the rows marked `true`. -/
def maskFilter : List Bool → List Value → List Value
  | b :: bs, v :: vs => if b then v :: maskFilter bs vs else maskFilter bs vs
  | _, _ => []

/-- `df.drop_duplicates(subset=["text"], keep="first")`.  pandas raises a
`KeyError` when the `text` column is absent; inside `merge_datasets` every
standardised frame carries `text`, so the identity fallback is unreachable
there. -/
def drop_duplicates_text (df : DataFrame) : DataFrame :=
  match df.getCol? "text" with
  | some c =>
      let mask := keepFirstGo [] c.values
      ⟨mask.count true,
       df.cols.map (fun col => ⟨col.name, col.dtype, maskFilter mask col.values⟩)⟩
  | none => df

/-- The final column reordering of `merge_datasets`: standard columns first
in canonical order, then the remaining columns in their existing order. -/
def reorderColumns (df : DataFrame) : DataFrame :=
  let co := standardColumns.filter (fun c => (df.getCol? c).isSome)
  let oth := (colNames df).filter (fun c => decide (c ∉ co))
  ⟨df.nrows, (co ++ oth).filterMap df.getCol?⟩

/-- The standardisation loop of `merge_datasets`: the first raised
`ValueError` propagates. -/
def standardiseAll :
    List (DataFrame × String) → Except String (List (DataFrame × String))
  | [] => .ok []
  | (df, n) :: rest =>
      match standardise_dataset df n with
      | .error e => .error e
      | .ok s =>
          match standardiseAll rest with
          | .error e => .error e
          | .ok ss => .ok ((s, n) :: ss)

/-- `DataUnifier.merge_datasets`: standardise, resolve ID conflicts,
concatenate, deduplicate on `text`, reorder columns. -/
def merge_datasets (ds : List (DataFrame × String)) : Except String DataFrame :=
  if ds.isEmpty then .error "No datasets provided for merging"
  else
    match standardiseAll ds with
    | .error e => .error e
    | .ok std =>
        .ok (reorderColumns (drop_duplicates_text (concatFrames
          ((resolve_id_conflicts std).map Prod.fst))))

/-- A well-formed row of the primary competition dataset (no `source`
column), used as a concrete input below. -/
def exPrimaryDf : DataFrame :=
  ⟨1, [Col.mk "id" "int64" [.vint 1], Col.mk "prompt_id" "int64" [.vint 1],
       Col.mk "text" "object" [.vstr "hello world"],
       Col.mk "generated" "int64" [.vint 0]]⟩

/-- A daigt-shaped row whose `source` column is entirely null, used as a
concrete input below. -/
def exDaigtNullSource : DataFrame :=
  ⟨1, [Col.mk "id" "object" [.vstr "a1"], Col.mk "prompt_id" "object" [.vstr "p1"],
       Col.mk "text" "object" [.vstr "some essay text"],
       Col.mk "generated" "int64" [.vint 1],
       Col.mk "source" "object" [.vnull]]⟩

/-- A frame whose `generated` column mixes numeric, numeric-string,
non-numeric and missing labels, used as a concrete input below. -/
def exGenMixedDf : DataFrame :=
  ⟨4, [Col.mk "id" "int64" [.vint 1, .vint 2, .vint 3, .vint 4],
       Col.mk "prompt_id" "int64" [.vint 1, .vint 1, .vint 2, .vint 2],
       Col.mk "text" "object"
         [.vstr "t one", .vstr "t two", .vstr "t three", .vstr "t four"],
       Col.mk "generated" "object" [.vint 1, .vstr "2", .vstr "abc", .vnull]]⟩

/-- Value of a most-significant-first decimal digit list (used to prove the
sequence tags of `resolve_id_conflicts` injective). -/
def digitsVal (ds : List Nat) : Nat := ds.foldl (fun a d => 10 * a + d) 0

-- Substring test facts used to collapse the `train_essay`/`train_` disjunction.

theorem isSubChars_of_isPrefixOf {n₁ n₂ h : List Char}
    (hp : n₁.isPrefixOf n₂ = true) (hs : isSubChars n₂ h = true) :
    isSubChars n₁ h = true := by
  induction h with
  | nil =>
      simp [isSubChars] at hs ⊢
      subst hs
      have : n₁ <+: ([] : List Char) := List.isPrefixOf_iff_prefix.mp hp
      simpa using List.prefix_nil.mp this
  | cons c t ih =>
      simp only [isSubChars, Bool.or_eq_true] at hs ⊢
      rcases hs with hs | hs
      · left
        have h₁ : n₁ <+: n₂ := List.isPrefixOf_iff_prefix.mp hp
        have h₂ : n₂ <+: (c :: t) := List.isPrefixOf_iff_prefix.mp hs
        exact List.isPrefixOf_iff_prefix.mpr (h₁.trans h₂)
      · exact Or.inr (ih hs)

theorem strIn_train_essay_imp (fl : String) :
    strIn "train_essay" fl = true → strIn "train_" fl = true := by
  intro h
  exact isSubChars_of_isPrefixOf (by decide) h

/-- C9: on any filename, `_infer_dataset_name` selects `train_prompts` when
the lower-cased name contains "train_" and "prompt", the primary schema when
it contains "train_" without "prompt", the daigt schema when it contains
"daigt" and not "train_", and no schema name otherwise. -/
theorem infer_dataset_name_spec (filename : String) :
    infer_dataset_name filename =
      (if strIn "train_" filename.toLower then
        (if strIn "prompt" filename.toLower then some "train_prompts"
         else some "primary_competition_data")
       else if strIn "daigt" filename.toLower then
         some "daigt_v2_additional_data"
       else none) := by
  unfold infer_dataset_name
  cases ht : strIn "train_" filename.toLower with
  | true => simp [ht]
  | false =>
      have hte : strIn "train_essay" filename.toLower = false := by
        cases hx : strIn "train_essay" filename.toLower
        · rfl
        · exact absurd (strIn_train_essay_imp _ hx) (by simp [ht])
      simp [ht, hte]

-- Validity bookkeeping of `validate_dataframe`: every error append also
-- clears `is_valid`, and nothing else touches `is_valid`.

theorem append_isEmpty_false {α : Type} (l e : List α) (he : e ≠ []) :
    (l ++ e).isEmpty = false := by
  cases l <;> cases e <;> simp_all [List.isEmpty]

theorem colStep_inv (df : DataFrame) (schema : DatasetSchema) (c : String)
    (r : ValidationResult) (h : r.is_valid = r.errors.isEmpty) :
    (colStep df schema c r).is_valid = (colStep df schema c r).errors.isEmpty := by
  unfold colStep
  cases hcs : schema.get_column_schema c with
  | none => simpa using h
  | some cs =>
      cases hcol : df.getCol? c with
      | none => simpa using h
      | some col =>
          simp only []
          split
          · exact h
          · next he =>
              have he' : validate_column col cs ≠ [] := by
                simpa [List.isEmpty_iff] using he
              simp [append_isEmpty_false _ _ he']

theorem colLoop_inv (df : DataFrame) (schema : DatasetSchema) :
    ∀ (cs : List String) (r : ValidationResult),
      r.is_valid = r.errors.isEmpty →
      (colLoop df schema cs r).is_valid = (colLoop df schema cs r).errors.isEmpty := by
  intro cs
  induction cs with
  | nil => intro r h; exact h
  | cons c rest ih => intro r h; exact ih _ (colStep_inv df schema c r h)

theorem addErrRes_inv (r : ValidationResult) (e : VErr) :
    (addErrRes r e).is_valid = (addErrRes r e).errors.isEmpty := by
  simp [addErrRes, append_isEmpty_false r.errors [e] (by simp)]

theorem minRowsCheck_inv (df : DataFrame) (schema : DatasetSchema)
    (r : ValidationResult) (h : r.is_valid = r.errors.isEmpty) :
    (minRowsCheck df schema r).is_valid = (minRowsCheck df schema r).errors.isEmpty := by
  unfold minRowsCheck
  split
  · exact addErrRes_inv _ _
  · exact h

theorem maxRowsCheck_inv (df : DataFrame) (schema : DatasetSchema)
    (r : ValidationResult) (h : r.is_valid = r.errors.isEmpty) :
    (maxRowsCheck df schema r).is_valid = (maxRowsCheck df schema r).errors.isEmpty := by
  unfold maxRowsCheck
  cases schema.max_rows with
  | none => exact h
  | some m =>
      simp only []
      split
      · exact addErrRes_inv _ _
      · exact h

theorem missingCheck_inv (df : DataFrame) (schema : DatasetSchema)
    (r : ValidationResult) (h : r.is_valid = r.errors.isEmpty) :
    (missingCheck df schema r).is_valid = (missingCheck df schema r).errors.isEmpty := by
  unfold missingCheck
  split
  · exact h
  · exact addErrRes_inv _ _

theorem extraCheck_inv (df : DataFrame) (schema : DatasetSchema)
    (r : ValidationResult) (h : r.is_valid = r.errors.isEmpty) :
    (extraCheck df schema r).is_valid = (extraCheck df schema r).errors.isEmpty := by
  unfold extraCheck
  split
  · exact h
  · simpa [addWarnRes] using h

theorem preColumnResult_inv (df : DataFrame) (schema : DatasetSchema) :
    (preColumnResult df schema).is_valid = (preColumnResult df schema).errors.isEmpty :=
  extraCheck_inv df schema _ (missingCheck_inv df schema _
    (maxRowsCheck_inv df schema _ (minRowsCheck_inv df schema _ rfl)))

/-- Claim C1; for every DataFrame and schema, the result of
`validate_dataframe` satisfies `is_valid = true` exactly when its `errors`
list is empty; warnings never affect validity. -/
theorem validate_dataframe_valid_iff (df : DataFrame) (schema : DatasetSchema) :
    (validate_dataframe df schema).is_valid =
      (validate_dataframe df schema).errors.isEmpty :=
  colLoop_inv df schema _ _ (preColumnResult_inv df schema)

-- Row-count error counting for C8: the per-column checks only ever emit
-- column errors, so the count of row-count errors is fixed before the loop.

theorem countP_rc_nullCheck (col : Col) (cs : ColumnSchema) :
    (nullCheckErrs col cs).countP isRowCountError = 0 := by
  unfold nullCheckErrs; split <;> simp [isRowCountError]

theorem countP_rc_uniqueCheck (col : Col) (cs : ColumnSchema) :
    (uniqueCheckErrs col cs).countP isRowCountError = 0 := by
  unfold uniqueCheckErrs; split <;> simp [isRowCountError]

theorem countP_rc_dtypeCheck (col : Col) (cs : ColumnSchema) :
    (dtypeCheckErrs col cs).countP isRowCountError = 0 := by
  unfold dtypeCheckErrs; split <;> [skip; split] <;> simp [isRowCountError]

theorem countP_rc_lengthCheck (col : Col) (cs : ColumnSchema) :
    (lengthCheckErrs col cs).countP isRowCountError = 0 := by
  unfold lengthCheckErrs
  repeat' split
  all_goals simp only [List.countP_append, List.countP_cons, List.countP_nil,
    isRowCountError]
  all_goals simp
  all_goals (intros; try subst_vars)
  all_goals
    (first
      | rfl
      | (rename_i hor; rcases hor with ⟨-, rfl⟩ | ⟨-, rfl⟩ <;> rfl))

theorem countP_rc_allowedCheck (col : Col) (cs : ColumnSchema) :
    (allowedCheckErrs col cs).countP isRowCountError = 0 := by
  unfold allowedCheckErrs
  repeat' split
  all_goals simp only [List.countP_append, List.countP_cons, List.countP_nil,
    isRowCountError]
  all_goals simp
  all_goals (intros; try subst_vars)
  all_goals
    (first
      | rfl
      | (rename_i hor; rcases hor with ⟨-, rfl⟩ | ⟨-, rfl⟩ <;> rfl))

theorem countP_rc_validate_column (col : Col) (cs : ColumnSchema) :
    (validate_column col cs).countP isRowCountError = 0 := by
  simp [validate_column, List.countP_append, countP_rc_nullCheck,
    countP_rc_uniqueCheck, countP_rc_dtypeCheck, countP_rc_lengthCheck,
    countP_rc_allowedCheck]

theorem colStep_countP (df : DataFrame) (schema : DatasetSchema) (c : String)
    (r : ValidationResult) :
    (colStep df schema c r).errors.countP isRowCountError =
      r.errors.countP isRowCountError := by
  unfold colStep
  cases hcs : schema.get_column_schema c with
  | none => rfl
  | some cs =>
      cases hcol : df.getCol? c with
      | none => rfl
      | some col =>
          simp only []
          split
          · rfl
          · simp [List.countP_append, countP_rc_validate_column]

theorem colLoop_countP (df : DataFrame) (schema : DatasetSchema) :
    ∀ (cs : List String) (r : ValidationResult),
      (colLoop df schema cs r).errors.countP isRowCountError =
        r.errors.countP isRowCountError := by
  intro cs
  induction cs with
  | nil => intro r; rfl
  | cons c rest ih => intro r; rw [colLoop, ih, colStep_countP]

theorem preColumnResult_min_rows (df : DataFrame) (schema : DatasetSchema)
    (hmin : (df.nrows : Int) < schema.min_rows)
    (hmax : ∀ m, schema.max_rows = some m → schema.min_rows ≤ m) :
    (preColumnResult df schema).errors.countP isRowCountError = 1 ∧
      (preColumnResult df schema).errors ≠ [] := by
  have h1 : minRowsCheck df schema (initialResult df schema) =
      addErrRes (initialResult df schema)
        (.insufficientRows df.nrows schema.min_rows) := by
    unfold minRowsCheck
    rw [if_pos hmin]
  have h2 : maxRowsCheck df schema (minRowsCheck df schema (initialResult df schema)) =
      minRowsCheck df schema (initialResult df schema) := by
    unfold maxRowsCheck
    cases hm : schema.max_rows with
    | none => rfl
    | some m =>
        have hno : ¬ (m ≠ 0 ∧ m < (df.nrows : Int)) := by
          rintro ⟨-, h2⟩
          have := hmax m hm
          omega
        simp only []
        rw [if_neg hno]
  unfold preColumnResult
  rw [h2, h1]
  unfold extraCheck missingCheck
  split <;> split <;>
    simp [addErrRes, addWarnRes, initialResult, isRowCountError, List.countP_append]

/-- Claim C8; when the table has fewer rows than `schema.min_rows` and the
schema has `max_rows >= min_rows` whenever `max_rows` is set,
`validate_dataframe` reports exactly one row-count error and is invalid. -/
theorem validate_dataframe_min_rows (df : DataFrame) (schema : DatasetSchema)
    (hmin : (df.nrows : Int) < schema.min_rows)
    (hmax : ∀ m, schema.max_rows = some m → schema.min_rows ≤ m) :
    (validate_dataframe df schema).errors.countP isRowCountError = 1 ∧
      (validate_dataframe df schema).is_valid = false := by
  obtain ⟨h1, h2⟩ := preColumnResult_min_rows df schema hmin hmax
  constructor
  · rw [validate_dataframe, colLoop_countP]; exact h1
  · have hv := validate_dataframe_valid_iff df schema
    have hcnt : (validate_dataframe df schema).errors.countP isRowCountError = 1 := by
      rw [validate_dataframe, colLoop_countP]; exact h1
    cases hne : (validate_dataframe df schema).errors with
    | nil => rw [hne] at hcnt; simp at hcnt
    | cons e es => rw [hv, hne]; rfl

theorem validate_dataframe_min_rows_witness :
    ((((⟨0, []⟩ : DataFrame).nrows : Int) < (1 : Int)) ∧
      ((validate_dataframe ⟨0, []⟩
          { name := "primary_competition_data", columns := [], min_rows := 1 }).errors.countP
            isRowCountError = 1 ∧
        (validate_dataframe ⟨0, []⟩
          { name := "primary_competition_data", columns := [], min_rows := 1 }).is_valid =
          false)) :=
  ⟨by decide,
   validate_dataframe_min_rows ⟨0, []⟩
     { name := "primary_competition_data", columns := [], min_rows := 1 }
     (by decide) (fun m h => nomatch h)⟩

/-- Claim C7; `validate_file` never raises: a missing file, an unsupported
suffix, or a failing load each yield an invalid result whose error list has
exactly one explanatory entry. -/
theorem validate_file_degrades (fi : FileInput) (dn : Option String)
    (h : fi.path_exists = false ∨ supportedSuffix fi.sfx = false ∨
      ∃ e, fi.load = .error e) :
    (validate_file fi dn).is_valid = false ∧
      (validate_file fi dn).errors.length = 1 := by
  unfold validate_file
  by_cases hex : fi.path_exists = false
  · simp [hex]
  · have hex' : fi.path_exists = true := by
      cases hpe : fi.path_exists
      · exact absurd hpe hex
      · rfl
    rcases h with h | h | ⟨e, he⟩
    · exact absurd h hex
    · simp [hex', h]
    · by_cases hs : supportedSuffix fi.sfx
      · simp [hex', hs, he]
      · simp [hex', hs]

theorem validate_file_degrades_witness :
    ((FileInput.mk "/data/train.csv" "train" ".csv" false
        (.error "unreachable")).path_exists = false ∨
      supportedSuffix (FileInput.mk "/data/train.csv" "train" ".csv" false
        (.error "unreachable")).sfx = false ∨
      ∃ e, (FileInput.mk "/data/train.csv" "train" ".csv" false
        (.error "unreachable")).load = .error e) ∧
    ((validate_file (FileInput.mk "/data/train.csv" "train" ".csv" false
        (.error "unreachable")) none).is_valid = false ∧
      (validate_file (FileInput.mk "/data/train.csv" "train" ".csv" false
        (.error "unreachable")) none).errors.length = 1) :=
  ⟨Or.inl rfl,
   validate_file_degrades
     (FileInput.mk "/data/train.csv" "train" ".csv" false (.error "unreachable"))
     none (Or.inl rfl)⟩

-- Column assignment and lookup facts used throughout the unifier proofs.

theorem find?_setColList_self (n dt : String) (vs : List Value) :
    ∀ cols : List Col,
      (setColList n dt vs cols).find? (fun c => c.name = n) = some ⟨n, dt, vs⟩ := by
  intro cols
  induction cols with
  | nil => simp [setColList]
  | cons c rest ih =>
      by_cases hc : c.name = n
      · simp [setColList, hc]
      · simp [setColList, hc, ih]

theorem find?_setColList_ne (n dt m : String) (vs : List Value) (h : m ≠ n) :
    ∀ cols : List Col,
      (setColList n dt vs cols).find? (fun c => c.name = m) =
        cols.find? (fun c => c.name = m) := by
  intro cols
  induction cols with
  | nil => simp [setColList, List.find?, Ne.symm h]
  | cons c rest ih =>
      by_cases hc : c.name = n
      · by_cases hm : c.name = m
        · exact absurd (hm.symm.trans hc) h
        · rw [setColList, if_pos hc]
          simp [List.find?, Ne.symm h, hm]
      · by_cases hm : c.name = m
        · rw [setColList, if_neg hc]
          simp [List.find?, hm]
        · rw [setColList, if_neg hc]
          simp only [List.find?, hm]
          simp [hm, ih]

theorem getCol?_setCol_self (df : DataFrame) (n dt : String) (vs : List Value) :
    (setCol df n dt vs).getCol? n = some ⟨n, dt, vs⟩ := by
  unfold setCol
  split
  · exact find?_setColList_self n dt vs df.cols
  · next habs =>
      have hnone : df.cols.find? (fun c => c.name = n) = none := by
        cases hx : df.getCol? n with
        | none => exact hx
        | some c => rw [hx] at habs; simp at habs
      simp [DataFrame.getCol?, List.find?_append, hnone]

theorem getCol?_setCol_ne (df : DataFrame) (n dt m : String) (vs : List Value)
    (h : m ≠ n) : (setCol df n dt vs).getCol? m = df.getCol? m := by
  unfold setCol
  split
  · exact find?_setColList_ne n dt m vs h df.cols
  · show (df.cols ++ [Col.mk n dt vs]).find? (fun c => c.name = m) = df.getCol? m
    rw [List.find?_append]
    cases hf : df.cols.find? (fun c => decide (c.name = m)) <;>
      simp [DataFrame.getCol?, hf, List.find?, Ne.symm h]

theorem nrows_setCol_present (df : DataFrame) (n dt : String) (vs : List Value)
    (h : (df.getCol? n).isSome) : (setCol df n dt vs).nrows = df.nrows := by
  unfold setCol
  rw [if_pos h]

theorem nrows_setCol_replicate (df : DataFrame) (n dt : String) (v : Value) :
    (setCol df n dt (List.replicate df.nrows v)).nrows = df.nrows := by
  unfold setCol
  split
  · rfl
  · by_cases hc : df.cols.isEmpty
    · simp [hc, List.length_replicate]
    · simp [hc]

-- Stage lemmas for `standardise_dataset`.

theorem getCol?_mapStep_ne (df acc : DataFrame) (p : String × String)
    (k : String) (h : p.1 ≠ k) :
    (mapStep df acc p).getCol? k = acc.getCol? k := by
  unfold mapStep
  cases df.getCol? p.2 with
  | none => rfl
  | some c => exact getCol?_setCol_ne acc p.1 c.dtype k c.values (Ne.symm h)

theorem getCol?_mapStep_self (df acc : DataFrame) (k src : String) :
    (mapStep df acc (k, src)).getCol? k =
      match df.getCol? src with
      | some c => some (Col.mk k c.dtype c.values)
      | none => acc.getCol? k := by
  unfold mapStep
  cases df.getCol? src with
  | none => rfl
  | some c => exact getCol?_setCol_self acc k c.dtype c.values

theorem getCol?_fillStep_ne (name c k : String) (acc : DataFrame) (h : c ≠ k) :
    (fillStep name c acc).getCol? k = acc.getCol? k := by
  unfold fillStep
  split
  · rfl
  · split
    · exact getCol?_setCol_ne acc c "object" k _ (Ne.symm h)
    · exact getCol?_setCol_ne acc c "object" k _ (Ne.symm h)

theorem getCol?_fillStep_present (name c : String) (acc : DataFrame)
    (h : (acc.getCol? c).isSome) : fillStep name c acc = acc := by
  unfold fillStep
  rw [if_pos h]

theorem nrows_fillStep (name c : String) (acc : DataFrame) :
    (fillStep name c acc).nrows = acc.nrows := by
  unfold fillStep
  split
  · rfl
  · split
    · exact nrows_setCol_replicate acc c "object" _
    · exact nrows_setCol_replicate acc c "object" _

theorem fillStep_pres (name c k : String) (acc : DataFrame)
    (h : (acc.getCol? k).isSome) :
    (fillStep name c acc).getCol? k = acc.getCol? k := by
  by_cases hc : c = k
  · subst hc
    rw [getCol?_fillStep_present name c acc h]
  · exact getCol?_fillStep_ne name c k acc hc

theorem fillGo_pres (name : String) :
    ∀ (cs : List String) (acc : DataFrame) (k : String),
      (acc.getCol? k).isSome →
      (fillGo name cs acc).getCol? k = acc.getCol? k := by
  intro cs
  induction cs with
  | nil => intro acc k _; rfl
  | cons c rest ih =>
      intro acc k h
      rw [fillGo, ih (fillStep name c acc) k (by rw [fillStep_pres name c k acc h]; exact h),
        fillStep_pres name c k acc h]

theorem fillGo_nrows (name : String) :
    ∀ (cs : List String) (acc : DataFrame),
      (fillGo name cs acc).nrows = acc.nrows := by
  intro cs
  induction cs with
  | nil => intro acc; rfl
  | cons c rest ih => intro acc; rw [fillGo, ih, nrows_fillStep]

theorem fillGo_absent (name : String) :
    ∀ (cs : List String) (acc : DataFrame) (k : String), k ∈ cs →
      acc.getCol? k = none →
      (fillGo name cs acc).getCol? k =
        some (Col.mk k "object"
          (List.replicate acc.nrows (if k = "source" then .vstr name else .vnull))) := by
  intro cs
  induction cs with
  | nil => intro acc k hk; exact absurd hk (List.not_mem_nil k)
  | cons c rest ih =>
      intro acc k hk habs
      by_cases hc : c = k
      · subst hc
        have hstep : (fillStep name c acc).getCol? c =
            some (Col.mk c "object"
              (List.replicate acc.nrows (if c = "source" then .vstr name else .vnull))) := by
          unfold fillStep
          rw [if_neg (by simp [habs])]
          by_cases hsrc : c = "source"
          · rw [if_pos hsrc, if_pos hsrc]
            exact getCol?_setCol_self acc c "object" _
          · rw [if_neg hsrc, if_neg hsrc]
            exact getCol?_setCol_self acc c "object" _
        rw [fillGo, fillGo_pres name rest (fillStep name c acc) c (by rw [hstep]; rfl),
          hstep]
      · have hk' : k ∈ rest := by
          cases hk with
          | head => exact absurd rfl hc
          | tail _ h => exact h
        have habs' : (fillStep name c acc).getCol? k = none := by
          rw [getCol?_fillStep_ne name c k acc hc]; exact habs
        rw [fillGo, ih (fillStep name c acc) k hk' habs', nrows_fillStep]

theorem fillGo_mem_isSome (name : String) (cs : List String) (acc : DataFrame)
    (k : String) (hk : k ∈ cs) : ((fillGo name cs acc).getCol? k).isSome := by
  cases hx : acc.getCol? k with
  | some c =>
      rw [fillGo_pres name cs acc k (by rw [hx]; rfl), hx]; rfl
  | none =>
      rw [fillGo_absent name cs acc k hk hx]; rfl

theorem getCol?_ensureStep_ne (p : String × Bool) (acc : DataFrame) (k : String)
    (h : p.1 ≠ k) : (ensureStep p acc).getCol? k = acc.getCol? k := by
  unfold ensureStep
  cases acc.getCol? p.1 with
  | none => rfl
  | some c =>
      simp only []
      split
      · exact getCol?_setCol_ne acc p.1 "int64" k _ (Ne.symm h)
      · exact getCol?_setCol_ne acc p.1 "object" k _ (Ne.symm h)

theorem getCol?_ensureStep_str (k : String) (acc : DataFrame) :
    (ensureStep (k, false) acc).getCol? k =
      (acc.getCol? k).map (fun c =>
        Col.mk k "object" (c.values.map (fun v => .vstr (renderVal v)))) := by
  unfold ensureStep
  cases hx : acc.getCol? k with
  | none => simp [hx]
  | some c => simpa using getCol?_setCol_self acc k "object" _

theorem getCol?_ensureStep_int (k : String) (acc : DataFrame) :
    (ensureStep (k, true) acc).getCol? k =
      (acc.getCol? k).map (fun c =>
        Col.mk k "int64" (c.values.map (fun v => .vint (coerceNum v)))) := by
  unfold ensureStep
  cases hx : acc.getCol? k with
  | none => simp [hx]
  | some c => simpa using getCol?_setCol_self acc k "int64" _

theorem nrows_ensureStep (p : String × Bool) (acc : DataFrame) :
    (ensureStep p acc).nrows = acc.nrows := by
  unfold ensureStep
  cases hx : acc.getCol? p.1 with
  | none => rfl
  | some c =>
      simp only []
      split
      · exact nrows_setCol_present acc p.1 "int64" _ (by rw [hx]; rfl)
      · exact nrows_setCol_present acc p.1 "object" _ (by rw [hx]; rfl)

-- The `_ensure_data_types` loop unfolded over its concrete conversion table.

theorem ensure_unfold (df : DataFrame) :
    ensure_data_types df =
      ensureStep ("source", false) (ensureStep ("generated", true)
        (ensureStep ("text", false) (ensureStep ("prompt_id", false)
          (ensureStep ("id", false) df)))) := rfl

theorem ensure_getCol_generated (df : DataFrame) :
    (ensure_data_types df).getCol? "generated" =
      (df.getCol? "generated").map (fun c =>
        Col.mk "generated" "int64" (c.values.map (fun v => .vint (coerceNum v)))) := by
  rw [ensure_unfold,
    getCol?_ensureStep_ne ("source", false) _ "generated" (by decide),
    getCol?_ensureStep_int "generated" _,
    getCol?_ensureStep_ne ("text", false) _ "generated" (by decide),
    getCol?_ensureStep_ne ("prompt_id", false) _ "generated" (by decide),
    getCol?_ensureStep_ne ("id", false) _ "generated" (by decide)]

theorem ensure_getCol_source (df : DataFrame) :
    (ensure_data_types df).getCol? "source" =
      (df.getCol? "source").map (fun c =>
        Col.mk "source" "object" (c.values.map (fun v => .vstr (renderVal v)))) := by
  rw [ensure_unfold, getCol?_ensureStep_str "source" _,
    getCol?_ensureStep_ne ("generated", true) _ "source" (by decide),
    getCol?_ensureStep_ne ("text", false) _ "source" (by decide),
    getCol?_ensureStep_ne ("prompt_id", false) _ "source" (by decide),
    getCol?_ensureStep_ne ("id", false) _ "source" (by decide)]

theorem ensure_getCol_text (df : DataFrame) :
    (ensure_data_types df).getCol? "text" =
      (df.getCol? "text").map (fun c =>
        Col.mk "text" "object" (c.values.map (fun v => .vstr (renderVal v)))) := by
  rw [ensure_unfold,
    getCol?_ensureStep_ne ("source", false) _ "text" (by decide),
    getCol?_ensureStep_ne ("generated", true) _ "text" (by decide),
    getCol?_ensureStep_str "text" _,
    getCol?_ensureStep_ne ("prompt_id", false) _ "text" (by decide),
    getCol?_ensureStep_ne ("id", false) _ "text" (by decide)]

theorem ensure_nrows (df : DataFrame) :
    (ensure_data_types df).nrows = df.nrows := by
  rw [ensure_unfold, nrows_ensureStep, nrows_ensureStep, nrows_ensureStep,
    nrows_ensureStep, nrows_ensureStep]

-- `sourceFill` facts.

theorem getCol?_sourceFill_ne (df : DataFrame) (name k : String)
    (h : k ≠ "source") : (sourceFill df name).getCol? k = df.getCol? k := by
  unfold sourceFill
  split
  · exact getCol?_setCol_ne df "source" "object" k _ h
  · rfl

theorem nrows_sourceFill (df : DataFrame) (name : String) :
    (sourceFill df name).nrows = df.nrows := by
  unfold sourceFill
  split
  · exact nrows_setCol_replicate df "source" "object" _
  · rfl

-- The column-mapping stage unfolded over the two concrete mappings.

theorem mapStage_primary_unfold (df : DataFrame) :
    mapStage df primaryMapping =
      mapStep df (mapStep df (mapStep df (mapStep df emptyFrame ("id", "id"))
        ("prompt_id", "prompt_id")) ("text", "text")) ("generated", "generated") := rfl

theorem mapStage_daigt_unfold (df : DataFrame) :
    mapStage df daigtMapping =
      mapStep df (mapStep df (mapStep df (mapStep df (mapStep df emptyFrame
        ("id", "id")) ("prompt_id", "prompt_id")) ("text", "text"))
        ("generated", "generated")) ("source", "source") := rfl

theorem mapStage_primary_generated (df : DataFrame) :
    (mapStage df primaryMapping).getCol? "generated" =
      (df.getCol? "generated").map (fun c => Col.mk "generated" c.dtype c.values) := by
  rw [mapStage_primary_unfold, getCol?_mapStep_self df _ "generated" "generated"]
  cases hg : df.getCol? "generated" with
  | some c => simp
  | none =>
      simp only [Option.map_none]
      rw [getCol?_mapStep_ne df _ ("text", "text") "generated" (by decide),
        getCol?_mapStep_ne df _ ("prompt_id", "prompt_id") "generated" (by decide),
        getCol?_mapStep_ne df _ ("id", "id") "generated" (by decide)]
      rfl

theorem mapStage_daigt_generated (df : DataFrame) :
    (mapStage df daigtMapping).getCol? "generated" =
      (df.getCol? "generated").map (fun c => Col.mk "generated" c.dtype c.values) := by
  rw [mapStage_daigt_unfold,
    getCol?_mapStep_ne df _ ("source", "source") "generated" (by decide),
    getCol?_mapStep_self df _ "generated" "generated"]
  cases hg : df.getCol? "generated" with
  | some c => simp
  | none =>
      simp only [Option.map_none]
      rw [getCol?_mapStep_ne df _ ("text", "text") "generated" (by decide),
        getCol?_mapStep_ne df _ ("prompt_id", "prompt_id") "generated" (by decide),
        getCol?_mapStep_ne df _ ("id", "id") "generated" (by decide)]
      rfl

-- C10: an unknown source name makes standardisation, and hence merging, fail.

theorem standardiseAll_unknown :
    ∀ ds : List (DataFrame × String),
      (∃ p ∈ ds, lookupMapping p.2 = none) →
      ∃ nm, lookupMapping nm = none ∧
        standardiseAll ds = .error ("No column mapping found for dataset: " ++ nm) := by
  intro ds
  induction ds with
  | nil => rintro ⟨p, hp, -⟩; cases hp
  | cons q rest ih =>
      rintro ⟨p, hp, hn⟩
      obtain ⟨qdf, qn⟩ := q
      cases hq : lookupMapping qn with
      | none =>
          exact ⟨qn, hq, by simp [standardiseAll, standardise_dataset, hq]⟩
      | some m =>
          have hrest : ∃ p ∈ rest, lookupMapping p.2 = none := by
            rcases List.mem_cons.mp hp with heq | hmem
            · subst heq; rw [hq] at hn; cases hn
            · exact ⟨p, hmem, hn⟩
          obtain ⟨nm, hnm, herr⟩ := ih hrest
          exact ⟨nm, hnm, by simp [standardiseAll, standardise_dataset, hq, herr]⟩

/-- Claim C10; for any source name other than the two registered ones,
`standardise_dataset` fails with the no-column-mapping `ValueError`, and
`merge_datasets` on any list containing that name fails with a
no-column-mapping `ValueError` as well (citing the first unknown name). -/
theorem standardise_unknown_name_errors (name : String)
    (h1 : name ≠ "primary_competition_data")
    (h2 : name ≠ "daigt_v2_additional_data") :
    (∀ df : DataFrame, standardise_dataset df name =
      .error ("No column mapping found for dataset: " ++ name)) ∧
    (∀ ds : List (DataFrame × String), (∃ df, (df, name) ∈ ds) →
      ∃ nm, lookupMapping nm = none ∧
        merge_datasets ds = .error ("No column mapping found for dataset: " ++ nm)) := by
  have hlk : lookupMapping name = none := by
    unfold lookupMapping
    rw [if_neg h1, if_neg h2]
  constructor
  · intro df
    unfold standardise_dataset
    rw [hlk]
  · intro ds hds
    obtain ⟨df, hmem⟩ := hds
    obtain ⟨nm, hnm, herr⟩ := standardiseAll_unknown ds ⟨(df, name), hmem, hlk⟩
    refine ⟨nm, hnm, ?_⟩
    unfold merge_datasets
    have hne : ds.isEmpty = false := by
      cases ds with
      | nil => cases hmem
      | cons a l => rfl
    rw [if_neg (by rw [hne]; exact Bool.false_ne_true)]
    rw [herr]

theorem standardise_unknown_name_errors_witness :
    ("foo" ≠ "primary_competition_data") ∧ ("foo" ≠ "daigt_v2_additional_data") ∧
    (standardise_dataset emptyFrame "foo" =
      .error "No column mapping found for dataset: foo") ∧
    (∃ nm, lookupMapping nm = none ∧
      merge_datasets [(emptyFrame, "foo")] =
        .error ("No column mapping found for dataset: " ++ nm)) :=
  ⟨by decide, by decide,
   (standardise_unknown_name_errors "foo" (by decide) (by decide)).1 emptyFrame,
   (standardise_unknown_name_errors "foo" (by decide) (by decide)).2
     [(emptyFrame, "foo")] ⟨emptyFrame, List.mem_singleton.mpr rfl⟩⟩

-- C3: the `generated` column of a standardised dataset.

theorem standardiseCore_generated (df : DataFrame) (name : String)
    (m : List (String × String))
    (hmap : (mapStage df m).getCol? "generated" =
      (df.getCol? "generated").map (fun c => Col.mk "generated" c.dtype c.values)) :
    (∃ c, (standardiseCore df name m).getCol? "generated" = some c ∧
      c.values.all (fun v => match v with | .vint _ => true | _ => false) = true) ∧
    (∀ c0, df.getCol? "generated" = some c0 →
      getColValues (standardiseCore df name m) "generated" =
        c0.values.map (fun v => .vint (coerceNum v))) := by
  have hs4 : (standardiseCore df name m).getCol? "generated" =
      (ensure_data_types (fillStage (mapStage df m) name)).getCol? "generated" := by
    unfold standardiseCore
    exact getCol?_sourceFill_ne _ name "generated" (by decide)
  cases hg : df.getCol? "generated" with
  | some c0 =>
      have hs1 : (mapStage df m).getCol? "generated" =
          some (Col.mk "generated" c0.dtype c0.values) := by rw [hmap, hg]; rfl
      have hs2 : (fillStage (mapStage df m) name).getCol? "generated" =
          some (Col.mk "generated" c0.dtype c0.values) := by
        unfold fillStage
        rw [fillGo_pres name standardColumns (mapStage df m) "generated"
          (by rw [hs1]; rfl), hs1]
      have hs3 : (ensure_data_types (fillStage (mapStage df m) name)).getCol?
          "generated" = some (Col.mk "generated" "int64"
            (c0.values.map (fun v => .vint (coerceNum v)))) := by
        rw [ensure_getCol_generated, hs2]; rfl
      constructor
      · refine ⟨_, by rw [hs4, hs3], ?_⟩
        simp
      · intro c1 hc1
        have hc : c1 = c0 := (Option.some.inj hc1).symm
        subst hc
        unfold getColValues
        rw [hs4, hs3]
        rfl
  | none =>
      have hs1 : (mapStage df m).getCol? "generated" = none := by
        rw [hmap, hg]; rfl
      have hs2 : (fillStage (mapStage df m) name).getCol? "generated" =
          some (Col.mk "generated" "object"
            (List.replicate (mapStage df m).nrows .vnull)) := by
        unfold fillStage
        rw [fillGo_absent name standardColumns (mapStage df m) "generated"
          (by decide) hs1]
        simp
      have hs3 : (ensure_data_types (fillStage (mapStage df m) name)).getCol?
          "generated" = some (Col.mk "generated" "int64"
            (List.replicate (mapStage df m).nrows (.vint 0))) := by
        rw [ensure_getCol_generated, hs2]
        simp [coerceNum]
      constructor
      · refine ⟨_, by rw [hs4, hs3], ?_⟩
        simp
      · intro c1 hc1
        exact absurd hc1 (by simp)

/-- Claim C3; for every table and registered source name, the standardised
output carries an integer `generated` column, and when the input has a
`generated` column each of its values maps positionally through the numeric
coercion: non-numeric or missing values become 0, numeric values keep their
integer value. -/
theorem standardise_generated_ints (df : DataFrame) (name : String)
    (m : List (String × String)) (hm : lookupMapping name = some m) :
    standardise_dataset df name = .ok (standardiseCore df name m) ∧
    (∃ c, (standardiseCore df name m).getCol? "generated" = some c ∧
      c.values.all (fun v => match v with | .vint _ => true | _ => false) = true) ∧
    (∀ c0, df.getCol? "generated" = some c0 →
      getColValues (standardiseCore df name m) "generated" =
        c0.values.map (fun v => .vint (coerceNum v))) := by
  have hok : standardise_dataset df name = .ok (standardiseCore df name m) := by
    unfold standardise_dataset
    rw [hm]
  refine ⟨hok, ?_⟩
  unfold lookupMapping at hm
  by_cases h1 : name = "primary_competition_data"
  · rw [if_pos h1] at hm
    cases hm
    exact standardiseCore_generated df name primaryMapping
      (mapStage_primary_generated df)
  · rw [if_neg h1] at hm
    by_cases h2 : name = "daigt_v2_additional_data"
    · rw [if_pos h2] at hm
      cases hm
      exact standardiseCore_generated df name daigtMapping
        (mapStage_daigt_generated df)
    · rw [if_neg h2] at hm
      cases hm

theorem standardise_generated_ints_witness :
    lookupMapping "primary_competition_data" = some primaryMapping ∧
    (standardise_dataset exGenMixedDf "primary_competition_data" =
      .ok (standardiseCore exGenMixedDf "primary_competition_data" primaryMapping) ∧
    (∃ c, (standardiseCore exGenMixedDf "primary_competition_data"
        primaryMapping).getCol? "generated" = some c ∧
      c.values.all (fun v => match v with | .vint _ => true | _ => false) = true) ∧
    (∀ c0, exGenMixedDf.getCol? "generated" = some c0 →
      getColValues (standardiseCore exGenMixedDf "primary_competition_data"
          primaryMapping) "generated" =
        c0.values.map (fun v => .vint (coerceNum v)))) ∧
    getColValues (standardiseCore exGenMixedDf "primary_competition_data"
        primaryMapping) "generated" = [.vint 1, .vint 2, .vint 0, .vint 0] :=
  ⟨by decide,
   standardise_generated_ints exGenMixedDf "primary_competition_data"
     primaryMapping (by decide),
   by decide⟩

-- C2: default filling of absent standard columns, and the fate of the
-- entirely-null `source` overwrite.

/-- Claim C2 (amended); for every table and registered source name:
(i) every standard column absent after renaming is filled, `source` with the
literal source name and the others with nulls, broadcast over the row count;
(ii) when `source` is absent after renaming the returned table carries the
literal source name in every `source` cell; (iii) the entirely-null-source
overwrite is checked only after type coercion has turned nulls into strings,
so whenever the filled `source` column is non-empty the overwrite is a
no-op and the returned table is exactly the type-coerced one. -/
theorem standardise_fill_defaults (df : DataFrame) (name : String)
    (m : List (String × String)) (hm : lookupMapping name = some m) :
    standardise_dataset df name = .ok (standardiseCore df name m) ∧
    (∀ c ∈ standardColumns, (mapStage df m).getCol? c = none →
      getColValues (fillStage (mapStage df m) name) c =
        List.replicate (mapStage df m).nrows
          (if c = "source" then .vstr name else .vnull)) ∧
    ((mapStage df m).getCol? "source" = none →
      getColValues (standardiseCore df name m) "source" =
        List.replicate (mapStage df m).nrows (.vstr name)) ∧
    (getColValues (fillStage (mapStage df m) name) "source" ≠ [] →
      standardiseCore df name m =
        ensure_data_types (fillStage (mapStage df m) name)) := by
  refine ⟨by unfold standardise_dataset; rw [hm], ?_, ?_, ?_⟩
  · intro c hc habs
    unfold getColValues fillStage
    rw [fillGo_absent name standardColumns (mapStage df m) c hc habs]
    rfl
  · intro habs
    have hs2 : (fillStage (mapStage df m) name).getCol? "source" =
        some (Col.mk "source" "object"
          (List.replicate (mapStage df m).nrows (.vstr name))) := by
      unfold fillStage
      rw [fillGo_absent name standardColumns (mapStage df m) "source"
        (by decide) habs]
      norm_num
    have hs3 : (ensure_data_types (fillStage (mapStage df m) name)).getCol?
        "source" = some (Col.mk "source" "object"
          (List.replicate (mapStage df m).nrows (.vstr name))) := by
      rw [ensure_getCol_source, hs2]
      norm_num [renderVal]
    have hn3 : (ensure_data_types (fillStage (mapStage df m) name)).nrows =
        (mapStage df m).nrows := by
      rw [ensure_nrows]
      unfold fillStage
      rw [fillGo_nrows]
    unfold standardiseCore sourceFill
    split
    · next hcond =>
        unfold getColValues
        rw [getCol?_setCol_self, hn3]
        rcases hcond with hnone | hall
        · rw [hs3] at hnone; cases hnone
        · unfold getColValues at hall
          rw [hs3] at hall
          cases hnr : (mapStage df m).nrows with
          | zero => rfl
          | succ k =>
              rw [hnr] at hall
              simp [List.all_replicate, Value.isNullV] at hall
    · unfold getColValues
      rw [hs3]
      rfl
  · intro hne
    obtain ⟨c2, hc2⟩ : ∃ c2, (fillStage (mapStage df m) name).getCol? "source" =
        some c2 := by
      cases hx : (fillStage (mapStage df m) name).getCol? "source" with
      | some c2 => exact ⟨c2, rfl⟩
      | none =>
          unfold getColValues at hne
          rw [hx] at hne
          exact absurd rfl hne
    have hvne : c2.values ≠ [] := by
      unfold getColValues at hne
      rw [hc2] at hne
      simpa using hne
    have hs3 : (ensure_data_types (fillStage (mapStage df m) name)).getCol?
        "source" = some (Col.mk "source" "object"
          (c2.values.map (fun v => .vstr (renderVal v)))) := by
      rw [ensure_getCol_source, hc2]
      rfl
    unfold standardiseCore sourceFill
    rw [if_neg ?hng]
    case hng =>
      rintro (hnone | hall)
      · rw [hs3] at hnone; cases hnone
      · unfold getColValues at hall
        rw [hs3] at hall
        cases hv : c2.values with
        | nil => exact hvne hv
        | cons v vs =>
            rw [hv] at hall
            simp [Value.isNullV] at hall

theorem standardise_fill_defaults_witness :
    lookupMapping "primary_competition_data" = some primaryMapping ∧
    (mapStage exPrimaryDf primaryMapping).getCol? "source" = none ∧
    getColValues (standardiseCore exPrimaryDf "primary_competition_data"
        primaryMapping) "source" =
      List.replicate (mapStage exPrimaryDf primaryMapping).nrows
        (.vstr "primary_competition_data") :=
  ⟨by decide, by decide,
   (standardise_fill_defaults exPrimaryDf "primary_competition_data"
      primaryMapping (by decide)).2.2.1 (by decide)⟩

/-- Claim C2, counterexample to the claim as stated: for this daigt-shaped
table the `source` column is entirely null after mapping, yet the returned
table holds the stringified null "None" in `source`, not the literal source
name, because type coercion stringifies the nulls before the overwrite
check runs. -/
theorem standardise_source_overwrite_cex :
    getColValues (mapStage exDaigtNullSource daigtMapping) "source" =
      [.vnull] ∧
    (getColValues (mapStage exDaigtNullSource daigtMapping) "source").all
      Value.isNullV = true ∧
    standardise_dataset exDaigtNullSource "daigt_v2_additional_data" =
      .ok (standardiseCore exDaigtNullSource "daigt_v2_additional_data"
        daigtMapping) ∧
    getColValues (standardiseCore exDaigtNullSource "daigt_v2_additional_data"
        daigtMapping) "source" = [.vstr "None"] ∧
    [Value.vstr "None"] ≠
      List.replicate 1 (Value.vstr "daigt_v2_additional_data") :=
  ⟨by decide, by decide, rfl, by decide, by decide⟩

-- C4: decimal-tag arithmetic.

theorem digitsVal_append_single (xs : List Nat) (d : Nat) :
    digitsVal (xs ++ [d]) = 10 * digitsVal xs + d := by
  simp [digitsVal, List.foldl_append]

theorem digitsGo_val : ∀ f n, n ≤ f → digitsVal (digitsGo f n) = n := by
  intro f
  induction f with
  | zero =>
      intro n hn
      have : n = 0 := Nat.le_zero.mp hn
      subst this
      simp [digitsGo, digitsVal]
  | succ f ih =>
      intro n hn
      rw [digitsGo]
      split
      · simp [digitsVal]
      · next h10 =>
          have hlt : n / 10 < n := Nat.div_lt_self (by omega) (by omega)
          rw [digitsVal_append_single, ih (n / 10) (by omega)]
          omega

theorem digitsGo_lt : ∀ f n, n ≤ f → ∀ d ∈ digitsGo f n, d < 10 := by
  intro f
  induction f with
  | zero =>
      intro n hn d hd
      have : n = 0 := Nat.le_zero.mp hn
      subst this
      simp [digitsGo] at hd
      omega
  | succ f ih =>
      intro n hn d hd
      rw [digitsGo] at hd
      split at hd
      · next h10 => simp at hd; omega
      · next h10 =>
          have hlt : n / 10 < n := Nat.div_lt_self (by omega) (by omega)
          rcases List.mem_append.mp hd with hd | hd
          · exact ih (n / 10) (by omega) d hd
          · simp at hd; omega

theorem padDigits_val (n : Nat) : digitsVal (padDigits n) = n := by
  unfold padDigits natDigits
  split
  · show digitsVal (0 :: digitsGo n n) = n
    have : digitsVal (0 :: digitsGo n n) = digitsVal (digitsGo n n) := by
      simp [digitsVal]
    rw [this, digitsGo_val n n (Nat.le_refl n)]
  · exact digitsGo_val n n (Nat.le_refl n)

theorem padDigits_lt (n : Nat) : ∀ d ∈ padDigits n, d < 10 := by
  unfold padDigits natDigits
  split
  · intro d hd
    rcases List.mem_cons.mp hd with h | h
    · omega
    · exact digitsGo_lt n n (Nat.le_refl n) d h
  · exact digitsGo_lt n n (Nat.le_refl n)

theorem digitChar_inj : ∀ a, a < 10 → ∀ b, b < 10 → digitChar a = digitChar b →
    a = b := by decide

theorem digitChar_ne_underscore : ∀ d, d < 10 → digitChar d ≠ '_' := by decide

theorem map_digitChar_inj :
    ∀ xs ys : List Nat, (∀ d ∈ xs, d < 10) → (∀ d ∈ ys, d < 10) →
      xs.map digitChar = ys.map digitChar → xs = ys := by
  intro xs
  induction xs with
  | nil =>
      intro ys _ _ h
      cases ys with
      | nil => rfl
      | cons y t => simp at h
  | cons x xt ih =>
      intro ys hx hy h
      cases ys with
      | nil => simp at h
      | cons y yt =>
          simp only [List.map_cons, List.cons.injEq] at h
          have hxy : x = y :=
            digitChar_inj x (hx x (List.mem_cons_self x xt)) y
              (hy y (List.mem_cons_self y yt)) h.1
          have ht : xt = yt :=
            ih yt (fun d hd => hx d (List.mem_cons_of_mem x hd))
              (fun d hd => hy d (List.mem_cons_of_mem y hd)) h.2
          rw [hxy, ht]

theorem append_underscore_inj :
    ∀ (xs ys as bs : List Char), (∀ c ∈ xs, c ≠ '_') → (∀ c ∈ ys, c ≠ '_') →
      xs ++ '_' :: as = ys ++ '_' :: bs → xs = ys := by
  intro xs
  induction xs with
  | nil =>
      intro ys as bs _ hy h
      cases ys with
      | nil => rfl
      | cons y t =>
          simp only [List.nil_append, List.cons_append, List.cons.injEq] at h
          exact absurd h.1.symm (hy y (List.mem_cons_self y t))
  | cons x xt ih =>
      intro ys as bs hx hy h
      cases ys with
      | nil =>
          simp only [List.nil_append, List.cons_append, List.cons.injEq] at h
          exact absurd h.1 (hx x (List.mem_cons_self x xt))
      | cons y yt =>
          simp only [List.cons_append, List.cons.injEq] at h
          have := ih yt as bs (fun c hc => hx c (List.mem_cons_of_mem x hc))
            (fun c hc => hy c (List.mem_cons_of_mem y hc)) h.2
          rw [h.1, this]

theorem str_data_append (s t : String) : (s ++ t).data = s.data ++ t.data := rfl

theorem seqTag_no_underscore (n : Nat) :
    ∀ c ∈ (padDigits n).map digitChar, c ≠ '_' := by
  intro c hc
  obtain ⟨d, hd, hdc⟩ := List.mem_map.mp hc
  rw [← hdc]
  exact digitChar_ne_underscore d (padDigits_lt n d hd)

theorem seqTag_append_inj (a b : Nat) (r1 r2 : String)
    (h : seqTag a ++ "_" ++ r1 = seqTag b ++ "_" ++ r2) : a = b := by
  have hd := congrArg String.data h
  rw [str_data_append, str_data_append, str_data_append, str_data_append] at hd
  have hd2 : (padDigits a).map digitChar ++ '_' :: r1.data =
      (padDigits b).map digitChar ++ '_' :: r2.data := by
    simpa [seqTag, List.append_assoc] using hd
  have hmap := append_underscore_inj _ _ _ _ (seqTag_no_underscore a)
    (seqTag_no_underscore b) hd2
  have hpad := map_digitChar_inj (padDigits a) (padDigits b)
    (padDigits_lt a) (padDigits_lt b) hmap
  have := congrArg digitsVal hpad
  rwa [padDigits_val, padDigits_val] at this

-- C4: `resolve_id_conflicts`.

theorem resolve_length (ds : List (DataFrame × String)) :
    (resolve_id_conflicts ds).length = ds.length := by
  simp [resolve_id_conflicts, List.enum_length]

theorem resolve_get (ds : List (DataFrame × String)) (k : Nat)
    (hk : k < ds.length) (hk2 : k < (resolve_id_conflicts ds).length) :
    (resolve_id_conflicts ds).get ⟨k, hk2⟩ =
      (resolveOne (ds.get ⟨k, hk⟩).1 (k + 1), (ds.get ⟨k, hk⟩).2) := by
  simp [resolve_id_conflicts, List.get_eq_getElem, List.getElem_map,
    List.getElem_enum]

theorem resolveOne_some (df : DataFrame) (c : Col) (seq : Nat)
    (h : df.getCol? "id" = some c) :
    getColValues (resolveOne df seq) "original_id" = c.values ∧
    getColValues (resolveOne df seq) "id" =
      c.values.map (fun v => .vstr (seqTag seq ++ "_" ++ renderVal v)) := by
  unfold resolveOne
  rw [h]
  constructor
  · unfold getColValues
    rw [getCol?_setCol_ne _ "id" "object" "original_id" _ (by decide),
      getCol?_setCol_self]
    rfl
  · unfold getColValues
    rw [getCol?_setCol_self]
    rfl

theorem resolveOne_none (df : DataFrame) (seq : Nat)
    (h : df.getCol? "id" = none) : resolveOne df seq = df := by
  unfold resolveOne
  rw [h]

/-- Claim C4; `resolve_id_conflicts` numbers tables from 1 in input order;
a table with an `id` column keeps each original id under `original_id` and
rewrites `id` to the 02d sequence tag, an underscore, and the stringified
original id; tables without `id` pass through unchanged; and the rewritten
id values of two distinct tables that both have an `id` column never
collide. -/
theorem resolve_id_conflicts_spec (ds : List (DataFrame × String)) :
    (resolve_id_conflicts ds).length = ds.length ∧
    (∀ k (hk : k < ds.length) (hk2 : k < (resolve_id_conflicts ds).length),
      ((resolve_id_conflicts ds).get ⟨k, hk2⟩).2 = (ds.get ⟨k, hk⟩).2 ∧
      (∀ c, (ds.get ⟨k, hk⟩).1.getCol? "id" = some c →
        getColValues ((resolve_id_conflicts ds).get ⟨k, hk2⟩).1 "original_id" =
          c.values ∧
        getColValues ((resolve_id_conflicts ds).get ⟨k, hk2⟩).1 "id" =
          c.values.map (fun v => .vstr (seqTag (k + 1) ++ "_" ++ renderVal v))) ∧
      ((ds.get ⟨k, hk⟩).1.getCol? "id" = none →
        ((resolve_id_conflicts ds).get ⟨k, hk2⟩).1 = (ds.get ⟨k, hk⟩).1)) ∧
    (∀ i j (hi : i < ds.length) (hj : j < ds.length)
        (hi2 : i < (resolve_id_conflicts ds).length)
        (hj2 : j < (resolve_id_conflicts ds).length), i ≠ j →
      ∀ v, v ∈ getColValues ((resolve_id_conflicts ds).get ⟨i, hi2⟩).1 "id" →
        ((ds.get ⟨i, hi⟩).1.getCol? "id").isSome →
        ((ds.get ⟨j, hj⟩).1.getCol? "id").isSome →
        v ∉ getColValues ((resolve_id_conflicts ds).get ⟨j, hj2⟩).1 "id") := by
  refine ⟨resolve_length ds, ?_, ?_⟩
  · intro k hk hk2
    rw [resolve_get ds k hk hk2]
    refine ⟨rfl, ?_, ?_⟩
    · intro c hc
      exact resolveOne_some (ds.get ⟨k, hk⟩).1 c (k + 1) hc
    · intro hnone
      exact resolveOne_none (ds.get ⟨k, hk⟩).1 (k + 1) hnone
  · intro i j hi hj hi2 hj2 hij v hvi hsi hsj hvj
    obtain ⟨ci, hci⟩ := Option.isSome_iff_exists.mp hsi
    obtain ⟨cj, hcj⟩ := Option.isSome_iff_exists.mp hsj
    rw [resolve_get ds i hi hi2] at hvi
    rw [resolve_get ds j hj hj2] at hvj
    rw [(resolveOne_some _ ci (i + 1) hci).2] at hvi
    rw [(resolveOne_some _ cj (j + 1) hcj).2] at hvj
    obtain ⟨wi, -, hwi⟩ := List.mem_map.mp hvi
    obtain ⟨wj, -, hwj⟩ := List.mem_map.mp hvj
    have hstr : seqTag (i + 1) ++ "_" ++ renderVal wi =
        seqTag (j + 1) ++ "_" ++ renderVal wj := by
      have := hwi.trans hwj.symm
      exact Value.vstr.inj this
    have := seqTag_append_inj (i + 1) (j + 1) _ _ hstr
    omega

theorem resolve_id_conflicts_spec_witness :
    ((0 : Nat) ≠ 1) ∧
    Value.vstr "01_1" ∈
      getColValues ((resolve_id_conflicts
        [(exPrimaryDf, "a"), (exPrimaryDf, "b")]).get ⟨0, by decide⟩).1 "id" ∧
    Value.vstr "01_1" ∉
      getColValues ((resolve_id_conflicts
        [(exPrimaryDf, "a"), (exPrimaryDf, "b")]).get ⟨1, by decide⟩).1 "id" :=
  ⟨by decide, by decide,
   (resolve_id_conflicts_spec [(exPrimaryDf, "a"), (exPrimaryDf, "b")]).2.2
     0 1 (by decide) (by decide) (by decide) (by decide) (by decide)
     (Value.vstr "01_1") (by decide) (by decide) (by decide)⟩

-- Membership facts for `dedupFirst` and frame column names.

theorem mem_dedupFirstAux {α : Type} [DecidableEq α] (a : α) :
    ∀ (l seen : List α), a ∈ dedupFirstAux seen l ↔ (a ∈ l ∧ a ∉ seen) := by
  intro l
  induction l with
  | nil => intro seen; simp [dedupFirstAux]
  | cons v vs ih =>
      intro seen
      by_cases hv : v ∈ seen
      · rw [dedupFirstAux, if_pos hv, ih]
        constructor
        · rintro ⟨h1, h2⟩
          exact ⟨List.mem_cons_of_mem v h1, h2⟩
        · rintro ⟨h1, h2⟩
          rcases List.mem_cons.mp h1 with rfl | h1
          · exact absurd hv h2
          · exact ⟨h1, h2⟩
      · rw [dedupFirstAux, if_neg hv]
        constructor
        · intro h
          rcases List.mem_cons.mp h with rfl | h
          · exact ⟨List.mem_cons_self a vs, hv⟩
          · obtain ⟨h1, h2⟩ := (ih (v :: seen)).mp h
            refine ⟨List.mem_cons_of_mem v h1, ?_⟩
            intro hs
            exact h2 (List.mem_cons_of_mem v hs)
        · rintro ⟨h1, h2⟩
          rcases List.mem_cons.mp h1 with rfl | h1
          · exact List.mem_cons_self a _
          · by_cases hav : a = v
            · subst hav; exact List.mem_cons_self a _
            · refine List.mem_cons_of_mem v ((ih (v :: seen)).mpr ⟨h1, ?_⟩)
              intro hs
              rcases List.mem_cons.mp hs with h | h
              · exact hav h
              · exact h2 h

theorem mem_dedupFirst {α : Type} [DecidableEq α] (a : α) (l : List α) :
    a ∈ dedupFirst l ↔ a ∈ l := by
  rw [dedupFirst, mem_dedupFirstAux]
  simp

theorem getCol?_name (df : DataFrame) (n : String) (c : Col)
    (h : df.getCol? n = some c) : c.name = n := by
  have := List.find?_some h
  simpa using this

theorem mem_colNames_iff (df : DataFrame) (n : String) :
    n ∈ colNames df ↔ (df.getCol? n).isSome := by
  unfold colNames DataFrame.getCol?
  rw [List.find?_isSome]
  constructor
  · intro h
    obtain ⟨c, hc, hcn⟩ := List.mem_map.mp h
    exact ⟨c, hc, by simp [hcn]⟩
  · rintro ⟨c, hc, hcn⟩
    simp at hcn
    exact List.mem_map.mpr ⟨c, hc, hcn⟩

-- `pd.concat` column lookup.

theorem find?_map_mk (F : String → Col) (hF : ∀ n, (F n).name = n) (n : String) :
    ∀ names : List String, n ∈ names →
      (names.map F).find? (fun c => c.name = n) = some (F n) := by
  intro names
  induction names with
  | nil => intro h; cases h
  | cons m t ih =>
      intro h
      by_cases hm : m = n
      · subst hm
        rw [List.map_cons, List.find?_cons_of_pos _ (by simp [hF m])]
      · rcases List.mem_cons.mp h with rfl | h
        · exact absurd rfl hm
        · rw [List.map_cons, List.find?_cons_of_neg _ (by simp [hF m, hm]), ih h]

theorem getCol?_concat (fs : List DataFrame) (n : String)
    (hmem : n ∈ concatNames fs) :
    (concatFrames fs).getCol? n =
      some (Col.mk n (concatDtype fs n) (concatColValues fs n)) := by
  unfold concatFrames DataFrame.getCol?
  exact find?_map_mk (fun m => Col.mk m (concatDtype fs m) (concatColValues fs m))
    (fun _ => rfl) n (concatNames fs) hmem

theorem mem_concatNames (fs : List DataFrame) (n : String) (f : DataFrame)
    (hf : f ∈ fs) (hn : n ∈ colNames f) : n ∈ concatNames fs := by
  unfold concatNames
  rw [mem_dedupFirst]
  exact List.mem_flatten.mpr ⟨colNames f, List.mem_map.mpr ⟨f, hf, rfl⟩, hn⟩

-- Keep-first mask counting.

theorem keepFirst_count (ts : List Value) :
    ∀ seen : List Value,
      (keepFirstGo seen ts).count true = (ts.toFinset \ seen.toFinset).card := by
  induction ts with
  | nil => intro seen; simp [keepFirstGo]
  | cons t ts ih =>
      intro seen
      rw [keepFirstGo]
      by_cases ht : t ∈ seen
      · have hmask : (decide (t ∉ seen)) = false := by simp [ht]
        rw [hmask, List.count_cons]
        simp only [ih (t :: seen)]
        have h1 : (t :: seen).toFinset = seen.toFinset := by
          simp [List.toFinset_cons, Finset.insert_eq_self.mpr (List.mem_toFinset.mpr ht)]
        have h2 : (t :: ts).toFinset \ seen.toFinset = ts.toFinset \ seen.toFinset := by
          rw [List.toFinset_cons]
          ext x
          simp only [Finset.mem_sdiff, Finset.mem_insert, List.mem_toFinset]
          constructor
          · rintro ⟨rfl | hx, hx2⟩
            · exact absurd (List.mem_toFinset.mpr ht) (by simpa using hx2)
            · exact ⟨hx, hx2⟩
          · rintro ⟨hx, hx2⟩
            exact ⟨Or.inr hx, hx2⟩
        rw [h1, h2]
        simp
      · have hmask : (decide (t ∉ seen)) = true := by simp [ht]
        rw [hmask, List.count_cons]
        simp only [ih (t :: seen)]
        have h2 : ts.toFinset \ (t :: seen).toFinset =
            ((t :: ts).toFinset \ seen.toFinset).erase t := by
          ext x
          simp only [Finset.mem_sdiff, Finset.mem_insert, List.mem_toFinset,
            Finset.mem_erase, List.toFinset_cons, List.mem_cons]
          constructor
          · rintro ⟨hx, hx2⟩
            exact ⟨fun h => hx2 (Or.inl h), Or.inr hx, fun hs => hx2 (Or.inr hs)⟩
          · rintro ⟨hxt, hx1 | hx1, hx2⟩
            · exact absurd hx1 hxt
            · refine ⟨hx1, ?_⟩
              rintro (h | h)
              · exact hxt h
              · exact hx2 h
        have hmem : t ∈ (t :: ts).toFinset \ seen.toFinset := by
          rw [List.toFinset_cons]
          exact Finset.mem_sdiff.mpr ⟨Finset.mem_insert_self t _,
            fun hs => ht (List.mem_toFinset.mp hs)⟩
        have hpos : 0 < ((t :: ts).toFinset \ seen.toFinset).card :=
          Finset.card_pos.mpr ⟨t, hmem⟩
        rw [h2, Finset.card_erase_of_mem hmem]
        have hite : (if (true == true) = true then 1 else 0) = 1 := rfl
        rw [hite]
        omega

theorem keepFirst_count_doubled (ts : List Value) :
    (keepFirstGo [] (ts ++ ts)).count true = (keepFirstGo [] ts).count true := by
  rw [keepFirst_count, keepFirst_count]
  simp

-- Frames entering the merge concatenation.

theorem getCol?_resolveOne_ne (df : DataFrame) (seq : Nat) (k : String)
    (h1 : k ≠ "id") (h2 : k ≠ "original_id") :
    (resolveOne df seq).getCol? k = df.getCol? k := by
  unfold resolveOne
  cases df.getCol? "id" with
  | none => rfl
  | some c =>
      rw [getCol?_setCol_ne _ "id" "object" k _ h1,
        getCol?_setCol_ne _ "original_id" c.dtype k _ h2]

theorem standardiseCore_text (df : DataFrame) (name : String)
    (m : List (String × String)) :
    ∃ ct, (standardiseCore df name m).getCol? "text" = some ct := by
  have hs2 : ((fillStage (mapStage df m) name).getCol? "text").isSome :=
    fillGo_mem_isSome name standardColumns (mapStage df m) "text" (by decide)
  obtain ⟨c2, hc2⟩ := Option.isSome_iff_exists.mp hs2
  refine ⟨Col.mk "text" "object" (c2.values.map (fun v => .vstr (renderVal v))), ?_⟩
  unfold standardiseCore
  rw [getCol?_sourceFill_ne _ name "text" (by decide), ensure_getCol_text, hc2]
  rfl

theorem standardiseAll_known :
    ∀ ds : List (DataFrame × String),
      (∀ p ∈ ds, (lookupMapping p.2).isSome) →
      ∃ l, standardiseAll ds = .ok l := by
  intro ds
  induction ds with
  | nil => intro _; exact ⟨[], rfl⟩
  | cons q rest ih =>
      intro h
      obtain ⟨qdf, qn⟩ := q
      obtain ⟨m, hm⟩ := Option.isSome_iff_exists.mp
        (h (qdf, qn) (List.mem_cons_self _ _))
      obtain ⟨l, hl⟩ := ih (fun p hp => h p (List.mem_cons_of_mem _ hp))
      refine ⟨(standardiseCore qdf qn m, qn) :: l, ?_⟩
      rw [standardiseAll]
      rw [show standardise_dataset qdf qn = .ok (standardiseCore qdf qn m) by
        unfold standardise_dataset; rw [hm]]
      rw [hl]

theorem nrows_reorder (df : DataFrame) : (reorderColumns df).nrows = df.nrows := rfl

theorem nrows_drop_duplicates (df : DataFrame) (c : Col)
    (h : df.getCol? "text" = some c) :
    (drop_duplicates_text df).nrows = (keepFirstGo [] c.values).count true := by
  unfold drop_duplicates_text
  rw [h]

-- The column-reorder characterisation (C6).

theorem names_filterMap (df : DataFrame) :
    ∀ ns : List String, (∀ n ∈ ns, (df.getCol? n).isSome) →
      (ns.filterMap df.getCol?).map Col.name = ns := by
  intro ns
  induction ns with
  | nil => intro _; rfl
  | cons n t ih =>
      intro h
      obtain ⟨c, hc⟩ := Option.isSome_iff_exists.mp (h n (List.mem_cons_self _ _))
      rw [List.filterMap_cons, hc, List.map_cons,
        ih (fun x hx => h x (List.mem_cons_of_mem _ hx)), getCol?_name df n c hc]

theorem reorder_colNames (df : DataFrame) :
    colNames (reorderColumns df) =
      standardColumns.filter (fun c => (df.getCol? c).isSome) ++
      (colNames df).filter (fun c => decide (c ∉
        standardColumns.filter (fun c2 => (df.getCol? c2).isSome))) := by
  unfold reorderColumns colNames
  rw [show (⟨df.nrows, ((standardColumns.filter (fun c => (df.getCol? c).isSome)) ++
    ((df.cols.map Col.name).filter (fun c => decide (c ∉
      standardColumns.filter (fun c2 => (df.getCol? c2).isSome))))).filterMap
        df.getCol?⟩ : DataFrame).cols = ((standardColumns.filter
          (fun c => (df.getCol? c).isSome)) ++
    ((df.cols.map Col.name).filter (fun c => decide (c ∉
      standardColumns.filter (fun c2 => (df.getCol? c2).isSome))))).filterMap
        df.getCol? from rfl]
  refine names_filterMap df _ ?_
  intro n hn
  rcases List.mem_append.mp hn with hn | hn
  · exact (List.mem_filter.mp hn).2
  · have := (List.mem_filter.mp hn).1
    exact (mem_colNames_iff df n).mp this

theorem reorder_canonical (df : DataFrame) :
    colNames (reorderColumns df) =
      standardColumns.filter (fun c => decide (c ∈ colNames (reorderColumns df))) ++
      (colNames df).filter (fun c => decide (c ∉ standardColumns)) := by
  have hco := reorder_colNames df
  rw [hco]
  have hmemco : ∀ c, c ∈ standardColumns.filter
      (fun c2 => (df.getCol? c2).isSome) → (df.getCol? c).isSome :=
    fun c hc => (List.mem_filter.mp hc).2
  congr 1
  · refine List.filter_congr ?_
    intro c hc
    have hiff : (df.getCol? c).isSome = true ↔
        c ∈ standardColumns.filter (fun c2 => (df.getCol? c2).isSome) ++
          (colNames df).filter (fun c2 => decide (c2 ∉
            standardColumns.filter (fun c3 => (df.getCol? c3).isSome))) := by
      constructor
      · intro h
        exact List.mem_append.mpr (Or.inl (List.mem_filter.mpr ⟨hc, by simpa using h⟩))
      · intro h
        rcases List.mem_append.mp h with h | h
        · exact (List.mem_filter.mp h).2
        · exact (mem_colNames_iff df c).mp (List.mem_filter.mp h).1
    rw [Bool.eq_iff_iff, decide_eq_true_eq]
    exact hiff
  · refine List.filter_congr ?_
    intro c hc
    have hiff : (c ∉ standardColumns.filter
        (fun c2 => (df.getCol? c2).isSome)) ↔ c ∉ standardColumns := by
      constructor
      · intro h1 h2
        exact h1 (List.mem_filter.mpr ⟨h2, (mem_colNames_iff df c).mp hc⟩)
      · intro h1 h2
        exact h1 (List.mem_filter.mp h2).1
    rw [Bool.eq_iff_iff, decide_eq_true_eq, decide_eq_true_eq]
    exact hiff

/-- Claim C6; for every non-empty input list with registered source names,
`merge_datasets` succeeds and the columns of its result are the present
standard columns in canonical order followed by the remaining columns of
the pre-reorder table in their existing order. -/
theorem merge_column_order (ds : List (DataFrame × String)) (hne : ds ≠ [])
    (hk : ∀ p ∈ ds, (lookupMapping p.2).isSome) :
    ∃ pre, merge_datasets ds = .ok (reorderColumns pre) ∧
      colNames (reorderColumns pre) =
        standardColumns.filter
          (fun c => decide (c ∈ colNames (reorderColumns pre))) ++
        (colNames pre).filter (fun c => decide (c ∉ standardColumns)) := by
  obtain ⟨l, hl⟩ := standardiseAll_known ds hk
  refine ⟨drop_duplicates_text (concatFrames
    ((resolve_id_conflicts l).map Prod.fst)), ?_, reorder_canonical _⟩
  unfold merge_datasets
  rw [if_neg ?hne2, hl]
  case hne2 =>
    cases ds with
    | nil => exact absurd rfl hne
    | cons a t => simp

theorem merge_column_order_witness :
    ([(exPrimaryDf, "primary_competition_data")] ≠ []) ∧
    (∀ p ∈ [(exPrimaryDf, "primary_competition_data")],
      (lookupMapping p.2).isSome) ∧
    (∃ pre, merge_datasets [(exPrimaryDf, "primary_competition_data")] =
        .ok (reorderColumns pre) ∧
      colNames (reorderColumns pre) =
        standardColumns.filter
          (fun c => decide (c ∈ colNames (reorderColumns pre))) ++
        (colNames pre).filter (fun c => decide (c ∉ standardColumns))) :=
  ⟨by decide, by decide,
   merge_column_order [(exPrimaryDf, "primary_competition_data")]
     (by decide) (by decide)⟩

theorem resolve_two (a b : DataFrame × String) :
    resolve_id_conflicts [a, b] =
      [(resolveOne a.1 1, a.2), (resolveOne b.1 2, b.2)] := by
  simp [resolve_id_conflicts, List.enum, List.enumFrom]

theorem resolve_single (a : DataFrame × String) :
    resolve_id_conflicts [a] = [(resolveOne a.1 1, a.2)] := by
  simp [resolve_id_conflicts, List.enum, List.enumFrom]

theorem resolve_pair_map (x : DataFrame) (n1 n2 : String) :
    (resolve_id_conflicts [(x, n1), (x, n2)]).map Prod.fst =
      [resolveOne x 1, resolveOne x 2] := by
  rw [resolve_two]
  rfl

theorem resolve_single_map (x : DataFrame) (n1 : String) :
    (resolve_id_conflicts [(x, n1)]).map Prod.fst = [resolveOne x 1] := by
  rw [resolve_single]
  rfl

theorem merge_eval (ds : List (DataFrame × String))
    (l : List (DataFrame × String)) (hne : ds.isEmpty = false)
    (hl : standardiseAll ds = .ok l) :
    merge_datasets ds = .ok (reorderColumns (drop_duplicates_text
      (concatFrames ((resolve_id_conflicts l).map Prod.fst)))) := by
  unfold merge_datasets
  rw [if_neg (by rw [hne]; exact Bool.false_ne_true), hl]

theorem standardiseAll_pair (x : DataFrame) (name : String) (s : DataFrame)
    (hs : standardise_dataset x name = .ok s) :
    standardiseAll [(x, name), (x, name)] = .ok [(s, name), (s, name)] := by
  rw [standardiseAll, hs, standardiseAll, hs, standardiseAll]

theorem standardiseAll_single (x : DataFrame) (name : String) (s : DataFrame)
    (hs : standardise_dataset x name = .ok s) :
    standardiseAll [(x, name)] = .ok [(s, name)] := by
  rw [standardiseAll, hs, standardiseAll]

/-- Claim C5; merging a table with itself under the same registered source
name yields the same row count as merging it once: deduplication on `text`
drops the second copy of every row. -/
theorem merge_self_dedup (df : DataFrame) (name : String)
    (hk : (lookupMapping name).isSome) :
    ∃ u2 u1, merge_datasets [(df, name), (df, name)] = .ok u2 ∧
      merge_datasets [(df, name)] = .ok u1 ∧ u2.nrows = u1.nrows := by
  obtain ⟨m, hm⟩ := Option.isSome_iff_exists.mp hk
  have hs : standardise_dataset df name = .ok (standardiseCore df name m) := by
    unfold standardise_dataset
    rw [hm]
  obtain ⟨ct, hct⟩ := standardiseCore_text df name m
  obtain ⟨s, hsgen⟩ : ∃ s, standardiseCore df name m = s := ⟨_, rfl⟩
  rw [hsgen] at hs hct
  have ht1 : (resolveOne s 1).getCol? "text" = some ct := by
    rw [getCol?_resolveOne_ne _ 1 "text" (by decide) (by decide), hct]
  have ht2 : (resolveOne s 2).getCol? "text" = some ct := by
    rw [getCol?_resolveOne_ne _ 2 "text" (by decide) (by decide), hct]
  have hmemtext : "text" ∈ colNames (resolveOne s 1) :=
    (mem_colNames_iff _ "text").mpr (by rw [ht1]; rfl)
  have hmem2 : "text" ∈ concatNames [resolveOne s 1, resolveOne s 2] :=
    mem_concatNames _ "text" _ (List.mem_cons_self _ _) hmemtext
  have hmem1 : "text" ∈ concatNames [resolveOne s 1] :=
    mem_concatNames _ "text" _ (List.mem_cons_self _ _) hmemtext
  have hv2 : concatColValues [resolveOne s 1, resolveOne s 2] "text" =
      ct.values ++ ct.values := by
    simp [concatColValues, ht1, ht2]
  have hv1 : concatColValues [resolveOne s 1] "text" = ct.values := by
    simp [concatColValues, ht1]
  have hc2 := getCol?_concat [resolveOne s 1, resolveOne s 2] "text" hmem2
  have hc1 := getCol?_concat [resolveOne s 1] "text" hmem1
  have hall2 := standardiseAll_pair df name s hs
  have hall1 := standardiseAll_single df name s hs
  refine ⟨_, _, merge_eval _ _ rfl hall2, merge_eval _ _ rfl hall1, ?_⟩
  rw [resolve_pair_map, resolve_single_map, nrows_reorder, nrows_reorder,
    nrows_drop_duplicates _ _ hc2, nrows_drop_duplicates _ _ hc1]
  show (keepFirstGo [] (concatColValues _ "text")).count true =
    (keepFirstGo [] (concatColValues _ "text")).count true
  rw [hv2, hv1]
  exact keepFirst_count_doubled ct.values

theorem merge_self_dedup_witness :
    (lookupMapping "primary_competition_data").isSome = true ∧
    (∃ u2 u1, merge_datasets [(exPrimaryDf, "primary_competition_data"),
        (exPrimaryDf, "primary_competition_data")] = .ok u2 ∧
      merge_datasets [(exPrimaryDf, "primary_competition_data")] = .ok u1 ∧
      u2.nrows = u1.nrows) :=
  ⟨by decide,
   merge_self_dedup exPrimaryDf "primary_competition_data" (by decide)⟩
